import Mathlib

/-!
Verification of the Auto-Folder-Icon media watcher.

This file gives a shallow embedding, in Lean 4, of the parts of the
repository that the specification's claims are about:

* `smart_icon_setter.py` — `SmartIconSetter.determine_media_type`;
* `media_watcher.py` — `MediaWatcher.process_folder`, `_infer_title`,
  `_is_likely_anime`, `_initial_scan`;
* `media_api.py` — `MediaAPI.get_poster`, `_cache_poster`,
  `_process_poster_image`;
* `src/smart_media_icon/tray/file_watcher.py` — `DebounceManager`.

Python strings are Lean `String`s (character lists), Python `bytes` are
`List Nat`, Python floats used as timestamps are `ℚ`, filesystem paths
are lists of components, and all external effects (HTTP requests, PIL
image operations, file reads/writes, the clock) are oracle functions
passed in explicitly.  Exceptions are modelled with `Except`.
-/

namespace AutoFolderIcon

/-! ## Python string primitives -/

/-- Python `str.lower()` restricted to ASCII, which is what `Char.toLower`
implements and all inputs in this development use. -/
def pyLower (s : String) : String :=
  String.mk (s.data.map Char.toLower)

/-- Python substring containment `pat in s` on character lists:
the empty pattern is contained in everything. -/
def containsSubAux (pat : List Char) : List Char → Bool
  | [] => pat.isEmpty
  | c :: t => pat.isPrefixOf (c :: t) || containsSubAux pat t

/-- Python `pat in s` for strings. -/
def strContains (s pat : String) : Bool :=
  containsSubAux pat.data s.data

/-- Index of the last occurrence of `c` in `l` (Python `str.rfind`),
`none` when absent. -/
def rfindChar (c : Char) (l : List Char) : Option Nat :=
  match l with
  | [] => none
  | x :: t =>
    match rfindChar c t with
    | some i => some (i + 1)
    | none => if x = c then some 0 else none

/-- Python `pathlib.PurePath.suffix` of a file name: the part from the
last dot on, provided that dot is neither the first nor the last
character; otherwise the empty string. -/
def pySuffix (name : String) : String :=
  match rfindChar '.' name.data with
  | some i => if 0 < i ∧ i < name.data.length - 1 then String.mk (name.data.drop i) else ""
  | none => ""

/-- Python `pathlib.PurePath.stem` of a file name: the name with
`pySuffix` removed. -/
def pyStem (name : String) : String :=
  match rfindChar '.' name.data with
  | some i => if 0 < i ∧ i < name.data.length - 1 then String.mk (name.data.take i) else name
  | none => name

/-- Python dict assignment `d[k] = v` on an association list: any
previous binding of `k` is replaced. -/
def pyDictSet {α : Type} (k : String) (v : α) (d : List (String × α)) : List (String × α) :=
  (k, v) :: d.filter fun e => !(e.1 == k)

/-! ## `smart_icon_setter.py`: media-type classification

A directory is modelled by the names of its regular files and, for each
immediate subdirectory, its name and the names of its regular files —
exactly the information `determine_media_type` reads through
`os.listdir`.  A non-existent directory is `none`. -/

/-- Immediate contents of a directory on disk, as seen by `os.listdir`. -/
structure MediaDirectory where
  rootFiles : List String
  subdirs : List (String × List String)
deriving DecidableEq, Repr

namespace SmartIconSetter

/-- `SmartIconSetter.media_extensions`. -/
def media_extensions : List String :=
  [".mp4", ".mkv", ".avi", ".mov", ".wmv", ".flv", ".webm", ".m4v",
   ".mpg", ".mpeg", ".m2v", ".3gp", ".3g2", ".f4v", ".asf", ".rm",
   ".rmvb", ".ts", ".mts", ".m2ts", ".vob", ".ogv", ".divx", ".xvid"]

/-- `SmartIconSetter.ignore_patterns`. -/
def ignore_patterns : List String :=
  ["desktop.ini", "thumbs.db", ".ds_store", "folder.ico", "poster.jpg",
   "poster.png", "cover.jpg", "cover.png", "fanart.jpg", "banner.jpg"]

/-- `SmartIconSetter._get_media_files_in_directory`: files whose
lowercased suffix is a media extension and whose lowercased name is not
in the ignore set. -/
def get_media_files_in_directory (files : List String) : List String :=
  files.filter fun item =>
    media_extensions.contains (pyLower (pySuffix item)) &&
    !(ignore_patterns.contains (pyLower item))

/-- `SmartIconSetter._has_subdirectories_with_media`. -/
def has_subdirectories_with_media (subdirs : List (String × List String)) : Bool :=
  subdirs.any fun sd =>
    !(ignore_patterns.contains (pyLower sd.1)) &&
    !(get_media_files_in_directory sd.2).isEmpty

/-- The `episode_patterns` list inside `determine_media_type`. -/
def episode_patterns : List String := ["episode", "ep", "e", "s01e", "s1e", "season"]

/-- The `part_patterns` list inside `determine_media_type`. -/
def part_patterns : List String := ["part", "disc", "cd", "dvd", "bd"]

/-- `any(any(pattern in name for pattern in episode_patterns) for name in file_names)`. -/
def has_episode_pattern (file_names : List String) : Bool :=
  file_names.any fun name => episode_patterns.any fun pat => strContains name pat

/-- `any(any(pattern in name for pattern in part_patterns) for name in file_names)`. -/
def has_part_pattern (file_names : List String) : Bool :=
  file_names.any fun name => part_patterns.any fun pat => strContains name pat

/-- `SmartIconSetter.determine_media_type`; `none` models a path for
which `os.path.exists` is false. -/
def determine_media_type (d : Option MediaDirectory) : String :=
  match d with
  | none => "unknown"
  | some dir =>
    let root_media_files := get_media_files_in_directory dir.rootFiles
    let has_media_subdirs := has_subdirectories_with_media dir.subdirs
    if has_media_subdirs then "series"
    else if root_media_files.length = 1 then "movie"
    else if root_media_files.length > 1 then
      let file_names := root_media_files.map fun f => pyLower (pyStem f)
      if has_episode_pattern file_names && !has_part_pattern file_names then "series"
      else if has_part_pattern file_names && !has_episode_pattern file_names then "movie"
      else "series"
    else "unknown"

end SmartIconSetter

/-! ## A small regular-expression engine

`media_watcher.py` uses Python `re` patterns (`re.match`, `re.search`,
`re.sub` with empty replacement).  We embed each pattern as a term of a
small regex AST and run it with a fuelled backtracking matcher whose
preference order (leftmost position, then left alternative first,
greedy/lazy repetition) is that of Python's `re` module.  `\b` and `$`
are context assertions, so the matcher threads the previous character. -/

/-- Python `\s` (ASCII range, the only characters our inputs contain). -/
def pySpace (c : Char) : Bool :=
  c = ' ' || c = '\t' || c = '\n' || c = '\r' || c = '\x0b' || c = '\x0c'

/-- Python `\w` for ASCII inputs: letters, digits, underscore. -/
def pyWord (c : Char) : Bool :=
  c.isAlpha || c.isDigit || c = '_'

/-- Regex AST: character classes, sequencing, alternation (left
preferred), greedy and lazy star, the word-boundary assertion `\b` and
the end anchor `$`. -/
inductive RE where
  | eps : RE
  | cls (p : Char → Bool) : RE
  | seq (a b : RE) : RE
  | alt (a b : RE) : RE
  | star (a : RE) : RE
  | lazyStar (a : RE) : RE
  | bnd : RE
  | eos : RE

namespace RE

/-- `a?` (greedy). -/
def opt (a : RE) : RE := .alt a .eps

/-- `a+` (greedy). -/
def plus (a : RE) : RE := .seq a (.star a)

/-- A case-insensitive literal string (the `re.IGNORECASE` reading of a
literal in a pattern). -/
def litCI (s : String) : RE :=
  s.data.foldr (fun c acc => .seq (.cls fun x => x.toLower = c.toLower) acc) .eps

/-- A case-sensitive literal string. -/
def litCS (s : String) : RE :=
  s.data.foldr (fun c acc => .seq (.cls fun x => x = c) acc) .eps

/-- `\d`. -/
def digit : RE := .cls Char.isDigit

/-- `\d{1,2}` (greedy: two digits preferred). -/
def digit12 : RE := .seq digit (opt digit)

/-- `\b` holds between `prev` and the next character when exactly one
side is a word character (a missing side counts as non-word). -/
def isBoundary (prev : Option Char) (s : List Char) : Bool :=
  let l := match prev with | some c => pyWord c | none => false
  let r := match s with | c :: _ => pyWord c | [] => false
  l != r

/-- Backtracking matcher in continuation-passing style.  `k` receives
the previous character and the rest of the input and returns the length
of that rest on success; `none` means this branch fails and earlier
choice points are retried.  Fuel bounds the call depth. -/
def reMatch : Nat → RE → Option Char → List Char → (Option Char → List Char → Option Nat) → Option Nat
  | 0, _, _, _, _ => none
  | _ + 1, .eps, prev, s, k => k prev s
  | _ + 1, .cls p, _, s, k =>
    match s with
    | [] => none
    | c :: t => if p c then k (some c) t else none
  | fuel + 1, .seq a b, prev, s, k =>
    reMatch fuel a prev s fun p' s' => reMatch fuel b p' s' k
  | fuel + 1, .alt a b, prev, s, k =>
    match reMatch fuel a prev s k with
    | some n => some n
    | none => reMatch fuel b prev s k
  | fuel + 1, .star a, prev, s, k =>
    match reMatch fuel a prev s (fun p' s' => reMatch fuel (.star a) p' s' k) with
    | some n => some n
    | none => k prev s
  | fuel + 1, .lazyStar a, prev, s, k =>
    match k prev s with
    | some n => some n
    | none => reMatch fuel a prev s fun p' s' => reMatch fuel (.lazyStar a) p' s' k
  | _ + 1, .bnd, prev, s, k => if isBoundary prev s then k prev s else none
  | _ + 1, .eos, prev, s, k =>
    match s with
    | [] => k prev s
    | _ :: _ => none

/-- Fuel that dominates the matcher's call depth for every pattern in
this file on input `s`. -/
def fuelFor (s : List Char) : Nat := 200 * (s.length + 10)

/-- Length of the preferred match of `re` at the start of `s` (given
previous character `prev`), or `none`. -/
def matchLen (re : RE) (prev : Option Char) (s : List Char) : Option Nat :=
  match reMatch (fuelFor s) re prev s (fun _ rest => some rest.length) with
  | some restLen => some (s.length - restLen)
  | none => none

/-- Python `re.search(pattern, s)` as a Boolean: a match exists at some
position. -/
def searchAux (re : RE) : Option Char → List Char → Bool
  | prev, s =>
    match matchLen re prev s with
    | some _ => true
    | none =>
      match s with
      | [] => false
      | c :: t => searchAux re (some c) t

/-- `re.search` over a string, from position 0. -/
def search (re : RE) (s : String) : Bool :=
  searchAux re none s.data

/-- `bool(re.match(pattern, s))`: a match anchored at position 0. -/
def matchAt0 (re : RE) (s : String) : Bool :=
  (matchLen re none s.data).isSome

/-- Python `re.sub(pattern, '', s)`: delete every non-overlapping match,
scanning left to right; boundary context is taken from the original
string, so the previous character after a deletion is the last deleted
character.  A zero-length match deletes nothing and scanning advances.
Structural recursion on fuel (one unit per input position suffices,
since every deletion consumes at least one character). -/
def stripAllFuel (re : RE) : Nat → Option Char → List Char → List Char
  | 0, _, s => s
  | _, _, [] => []
  | fuel + 1, prev, c :: t =>
    match matchLen re prev (c :: t) with
    | some n =>
      if n = 0 then
        c :: stripAllFuel re fuel (some c) t
      else
        stripAllFuel re fuel ((List.take n (c :: t)).getLast?) (List.drop n (c :: t))
    | none => c :: stripAllFuel re fuel (some c) t

/-- `re.sub(pattern, '', s)` on strings. -/
def strip (re : RE) (s : String) : String :=
  String.mk (stripAllFuel re (s.data.length + 1) none s.data)

end RE

/-! ## `media_watcher.py`: title inference

A filesystem path is its list of components; `pathlib`'s `.name` is the
last component and `.parent` drops it (the empty list plays the role of
`Path('.')`, whose `.name` is the empty string). -/

/-- A path as a list of components. -/
abbrev PyPath := List String

/-- `pathlib.PurePath.name`. -/
def pathName (p : PyPath) : String := (p.getLast?).getD ""

/-- `str(path).lower()`; the separator never matters to the substring
checks performed on it. -/
def pathStrLower (p : PyPath) : String := pyLower (String.intercalate "/" p)

/-- `str(path)` with original case, as scanned by `re.search` in
`_is_likely_anime`. -/
def pathStr (p : PyPath) : String := String.intercalate "/" p

namespace MediaWatcher

open RE

/-- `r'^Season\s*\d+$'` with `re.IGNORECASE` (used via `re.search`, but
the `^`/`$` anchors make it a full match from position 0). -/
def seasonFolderRE : RE :=
  .seq (litCI "Season") (.seq (.star (.cls pySpace)) (.seq (plus digit) .eos))

/-- `r'\bS\d{1,2}E\d{1,2}\b'`. -/
def sdeRE : RE :=
  .seq .bnd (.seq (litCI "S") (.seq digit12 (.seq (litCI "E") (.seq digit12 .bnd))))

/-- `r'\b\d{1,2}x\d{1,2}\b'`. -/
def nxnRE : RE :=
  .seq .bnd (.seq digit12 (.seq (litCI "x") (.seq digit12 .bnd)))

/-- `r'\b(720p|1080p|2160p|4K|UHD)\b'`. -/
def qualityRE : RE :=
  .seq .bnd (.seq (.alt (litCI "720p") (.alt (litCI "1080p")
    (.alt (litCI "2160p") (.alt (litCI "4K") (litCI "UHD"))))) .bnd)

/-- `r'\b(HDTV|BluRay|WEB-DL|WEBRip)\b'`. -/
def sourceRE : RE :=
  .seq .bnd (.seq (.alt (litCI "HDTV") (.alt (litCI "BluRay")
    (.alt (litCI "WEB-DL") (litCI "WEBRip")))) .bnd)

/-- `r'\b(x264|x265|HEVC|AVC)\b'`. -/
def codecRE : RE :=
  .seq .bnd (.seq (.alt (litCI "x264") (.alt (litCI "x265")
    (.alt (litCI "HEVC") (litCI "AVC")))) .bnd)

/-- `r'\bSeason\s\d+\b'`. -/
def seasonTextRE : RE :=
  .seq .bnd (.seq (litCI "Season") (.seq (.cls pySpace) (.seq (plus digit) .bnd)))

/-- `r'\[.*?\]'` (no DOTALL: `.` excludes newline). -/
def bracketRE : RE :=
  .seq (.cls (· = '[')) (.seq (.lazyStar (.cls (· ≠ '\n'))) (.cls (· = ']')))

/-- `r'\(.*?\)'`. -/
def parenRE : RE :=
  .seq (.cls (· = '(')) (.seq (.lazyStar (.cls (· ≠ '\n'))) (.cls (· = ')')))

/-- `r'\.\w+$'`. -/
def extRE : RE :=
  .seq (.cls (· = '.')) (.seq (plus (.cls pyWord)) .eos)

/-- The `patterns` list in `_infer_title`, in source order. -/
def title_patterns : List RE :=
  [sdeRE, nxnRE, qualityRE, sourceRE, codecRE, seasonTextRE, bracketRE, parenRE, extRE]

/-- `r'^[A-Z][a-z]+([A-Z][a-z]+)+$'` (checked with `re.match`). -/
def camelCaseRE : RE :=
  .seq (.cls Char.isUpper) (.seq (plus (.cls Char.isLower))
    (.seq (plus (.seq (.cls Char.isUpper) (plus (.cls Char.isLower)))) .eos))

/-- `re.sub(r'([a-z])([A-Z])', r'\1 \2', s)`: insert a space at each
lowercase→uppercase transition; the two matched characters are consumed,
so scanning resumes after them. -/
def camelSub1 : List Char → List Char
  | a :: b :: rest =>
    if a.isLower && b.isUpper then a :: ' ' :: b :: camelSub1 rest
    else a :: camelSub1 (b :: rest)
  | l => l

/-- `re.sub(r'([A-Z])([A-Z][a-z])', r'\1 \2', s)`: the match consumes
three characters and a space is inserted after the first. -/
def camelSub2 : List Char → List Char
  | a :: b :: c :: rest =>
    if a.isUpper && b.isUpper && c.isLower then a :: ' ' :: b :: c :: camelSub2 rest
    else a :: camelSub2 (b :: c :: rest)
  | l => l

/-- Replace every maximal run of characters satisfying `p` by the single
character `r` (the effect of `re.sub(r'[._]+', ' ', s)` and
`re.sub(r'\s+', ' ', s)`); fuelled for kernel reducibility. -/
def collapseRunsFuel (p : Char → Bool) (r : Char) : Nat → List Char → List Char
  | 0, s => s
  | _, [] => []
  | fuel + 1, c :: t =>
    if p c then r :: collapseRunsFuel p r fuel (t.dropWhile p)
    else c :: collapseRunsFuel p r fuel t

/-- Run collapse with enough fuel for the whole input. -/
def collapseRuns (p : Char → Bool) (r : Char) (l : List Char) : List Char :=
  collapseRunsFuel p r (l.length + 1) l

/-- Python `str.strip()`. -/
def pyStrip (s : String) : String :=
  String.mk (((s.data.dropWhile pySpace).reverse.dropWhile pySpace).reverse)

/-- The non-recursive part of `MediaWatcher._infer_title`, applied to a
folder name: the CamelCase special case, else the pattern-stripping
cleanup. -/
def infer_name (folder_name : String) : String :=
  if RE.matchAt0 camelCaseRE folder_name then
    pyStrip (String.mk (camelSub2 (camelSub1 folder_name.data)))
  else
    let cleaned := title_patterns.foldl (fun acc re => RE.strip re acc) folder_name
    let cleaned := String.mk (collapseRuns (fun c => c = '.' || c = '_') ' ' cleaned.data)
    let cleaned := String.mk (collapseRuns pySpace ' ' cleaned.data)
    pyStrip cleaned

/-- The library-root sentinel names in `_infer_title`. -/
def root_sentinels : List String := ["media", "test_media"]

/-- `MediaWatcher._infer_title`: on a season folder whose parent is not
a sentinel, recurse on the parent; otherwise clean up the leaf name.
The empty path is `Path('.')`, whose name is the empty string; each
recursion drops one component, so fuel `length + 1` is never exhausted. -/
def inferTitleFuel : Nat → PyPath → String
  | 0, _ => infer_name ""
  | _, [] => infer_name ""
  | fuel + 1, x :: p =>
    if RE.matchAt0 seasonFolderRE (pathName (x :: p)) &&
        !(root_sentinels.contains (pyLower (pathName (x :: p).dropLast))) then
      inferTitleFuel fuel (x :: p).dropLast
    else
      infer_name (pathName (x :: p))

/-- `MediaWatcher._infer_title` on a path. -/
def infer_title (p : PyPath) : String :=
  inferTitleFuel (p.length + 1) p

/-! ### `MediaWatcher._is_likely_anime` -/

/-- The `anime_terms` list. -/
def anime_terms : List String :=
  ["anime", "manga", "subbed", "dubbed", "sub", "dub",
   "season", "episode", "ova", "special", "movie",
   "chan", "kun", "san", "sama", "sensei",
   "otaku", "weeaboo", "weeb"]

/-- The `popular_anime` list (duplicates included, as in the source). -/
def popular_anime : List String :=
  ["attack on titan", "shingeki no kyojin", "one piece", "naruto", "bleach",
   "my hero academia", "boku no hero", "dragon ball", "sword art online",
   "death note", "fullmetal alchemist", "demon slayer", "kimetsu no yaiba",
   "tokyo ghoul", "hunter x hunter", "cowboy bebop", "one punch man",
   "jojo", "evangelion", "pokemon", "fairy tail", "code geass", "steins gate",
   "your name", "kimi no na wa", "studio ghibli", "miyazaki",
   "jujutsu kaisen", "chainsaw man", "spy x family", "mob psycho",
   "attack on titan", "my hero academia"]

/-- The `anime_studios` list. -/
def anime_studios : List String :=
  ["toei", "madhouse", "bones", "shaft", "trigger",
   "gainax", "kyoto animation", "production i.g", "a-1 pictures",
   "wit studio", "ufotable", "mappa", "crunchyroll", "funimation"]

/-- The `anime_patterns` regexes (searched case-sensitively over
`str(folder_path)`), in source order. -/
def anime_patterns : List RE :=
  [ .seq (.cls fun c => c = '[' || c = '(')
      (.seq (.alt (litCS "BD") (.alt (litCS "720p") (litCS "1080p")))
        (.cls fun c => c = ']' || c = ')')),
    .seq (litCS "S") (.seq (plus digit) (.seq (litCS "E") (plus digit))),
    .seq (.cls fun c => c = '[' || c = '(')
      (.seq (.alt (litCS "Sub") (litCS "Dub"))
        (.cls fun c => c = ']' || c = ')')),
    .seq (plus digit) (.seq (.star (.cls pySpace))
      (.seq (litCS "-") (.seq (.star (.cls pySpace)) (plus digit)))),
    .seq (.cls fun c => c = '[' || c = '(')
      (.seq (.alt (litCS "Complete") (litCS "Batch"))
        (.cls fun c => c = ']' || c = ')')) ]

/-- `MediaWatcher._is_likely_anime`, in the source's check order:
popular titles, generic terms, studios, release-tag patterns, then the
`anime`/`japanese` path check. -/
def is_likely_anime (title : String) (folder_path : PyPath) : Bool :=
  let title_lower := pyLower title
  let path_str := pathStrLower folder_path
  if popular_anime.any (fun a => strContains title_lower a) then true
  else if anime_terms.any
      (fun t => strContains title_lower t || strContains path_str t) then true
  else if anime_studios.any
      (fun st => strContains title_lower st || strContains path_str st) then true
  else if anime_patterns.any (fun re => RE.search re (pathStr folder_path)) then true
  else if strContains path_str "anime" || strContains path_str "japanese" then true
  else false

/-! ### `MediaWatcher.process_folder`

State and effects.  The watcher's mutable state is the
`recently_processed` dict (path string → timestamp, timestamps as `ℚ`).
External effects are oracles in `PFEnv`; each fallible one returns
`Except String`, an exception being an `.error`.  What the claims
observe — poster requests, poster writes, icon applications, error log
lines — is recorded in `PFActions`. -/

/-- `MEDIA_EXTENSIONS` at the top of `media_watcher.py`. -/
def MEDIA_EXTENSIONS : List String :=
  [".mp4", ".mkv", ".avi", ".mov", ".wmv", ".flv", ".webm", ".m4v", ".mpg", ".mpeg", ".3gp",
   ".mp3", ".flac", ".wav", ".ogg", ".m4a", ".aac", ".wma"]

/-- `MediaWatcher.REPROCESS_WINDOW` (seconds). -/
def REPROCESS_WINDOW : ℚ := 5

/-- The freshness window `30 * 24 * 60 * 60` seconds. -/
def FRESHNESS_WINDOW : ℚ := 30 * 24 * 60 * 60

/-- The configuration fields `process_folder` reads. -/
structure PFConfig where
  MEDIA_ROOT_DIR : PyPath
  FORCE_UPDATE : Bool

/-- The watcher's mutable state: the `recently_processed` dict. -/
structure PFState where
  recent : List (String × ℚ)
deriving DecidableEq

/-- Observable actions of one `process_folder` run. -/
structure PFActions where
  posterRequests : List (String × Bool × Bool)
  posterWrites : List (PyPath × List Nat)
  iconSets : List (PyPath × String)
  errorsLogged : List String
deriving DecidableEq

/-- No actions. -/
def PFActions.none : PFActions := ⟨[], [], [], []⟩

/-- The external world as `process_folder` sees it.  `now` is the first
`time.time()` reading, `now2` the one inside the freshness check. -/
structure PFEnv where
  now : ℚ
  now2 : ℚ
  iterdir : PyPath → Except String (List (String × Bool))
  pathExists : PyPath → Bool
  mtime : PyPath → Except String ℚ
  getPoster : String → Bool → Bool → Except String (Option (List Nat))
  writeFile : PyPath → List Nat → Except String Unit
  setIcon : PyPath → String → Except String Bool

/-- `MediaWatcher._get_media_files` applied to an `iterdir` listing
(`(name, is_file)` pairs). -/
def get_media_files (entries : List (String × Bool)) : List String :=
  (entries.filter fun e => e.2 && MEDIA_EXTENSIONS.contains (pyLower (pySuffix e.1))).map
    Prod.fst

/-- An in-flight exception: the message together with the state and the
actions already performed when it was raised. -/
abbrev PFErr := String × PFState × PFActions

/-- The tail of `process_folder` from title inference on: infer, request
the poster, write `poster.jpg` into the target folder, set the folder
icon.  `if not poster_data` treats both `None` and empty bytes as
failure. -/
def process_folder_fetch (env : PFEnv) (s : PFState) (folder_path target : PyPath) :
    Except PFErr (PFState × PFActions) :=
  let title := infer_title target
  if title = "" then .ok (s, PFActions.none)
  else
    let is_tv_show := folder_path.any fun part => strContains (pyLower part) "season"
    let is_anime := is_likely_anime title folder_path
    let acts : PFActions := { PFActions.none with posterRequests := [(title, is_tv_show, is_anime)] }
    match env.getPoster title is_tv_show is_anime with
    | .error e => .error (e, s, acts)
    | .ok poster_data =>
      match poster_data with
      | none => .ok (s, acts)
      | some d =>
        if d.isEmpty then .ok (s, acts)
        else
          let poster_path := target ++ ["poster.jpg"]
          match env.writeFile poster_path d with
          | .error e => .error (e, s, acts)
          | .ok _ =>
            let acts := { acts with posterWrites := acts.posterWrites ++ [(poster_path, d)] }
            match env.setIcon target "poster.jpg" with
            | .error e => .error (e, s, acts)
            | .ok _ => .ok (s, { acts with iconSets := acts.iconSets ++ [(target, "poster.jpg")] })

/-- The body of `MediaWatcher.process_folder` (the contents of its
`try` block): recency guard, root check, media check, season-folder
redirect, freshness skip, then `process_folder_fetch`. -/
def process_folder_body (env : PFEnv) (cfg : PFConfig) (s : PFState) (folder_path : PyPath) :
    Except PFErr (PFState × PFActions) :=
  let key := pathStr folder_path
  let last_time := (s.recent.lookup key).getD 0
  if env.now - last_time < REPROCESS_WINDOW then .ok (s, PFActions.none)
  else
    let s : PFState := ⟨pyDictSet key env.now s.recent⟩
    if pathStr folder_path = pathStr cfg.MEDIA_ROOT_DIR then .ok (s, PFActions.none)
    else
      match env.iterdir folder_path with
      | .error e => .error (e, s, PFActions.none)
      | .ok entries =>
        if (get_media_files entries).isEmpty then .ok (s, PFActions.none)
        else
          let is_season_folder := RE.matchAt0 seasonFolderRE (pathName folder_path)
          let target := if is_season_folder then folder_path.dropLast else folder_path
          let s : PFState :=
            if is_season_folder then ⟨pyDictSet (pathStr target) env.now s.recent⟩ else s
          let poster_path := target ++ ["poster.jpg"]
          let ini_path := target ++ ["desktop.ini"]
          if env.pathExists poster_path && env.pathExists ini_path then
            match env.mtime poster_path with
            | .error e => .error (e, s, PFActions.none)
            | .ok m =>
              if env.now2 - m < FRESHNESS_WINDOW ∧ ¬cfg.FORCE_UPDATE then
                .ok (s, PFActions.none)
              else process_folder_fetch env s folder_path target
          else process_folder_fetch env s folder_path target

/-- `MediaWatcher.process_folder`: the body wrapped in the
`try/except` that logs the offending path and returns normally. -/
def process_folder (env : PFEnv) (cfg : PFConfig) (s : PFState) (folder_path : PyPath) :
    PFState × PFActions :=
  match process_folder_body env cfg s folder_path with
  | .ok r => r
  | .error (_, s', acts) =>
    (s', { acts with errorsLogged := acts.errorsLogged ++ [pathStr folder_path] })

/-- The state component of a run of the `try` body, whether it returned
or raised (kept irreducible so proofs can treat it as a projection). -/
@[irreducible] def stateOf (r : Except PFErr (PFState × PFActions)) : PFState :=
  match r with
  | .ok (s', _) => s'
  | .error (_, s', _) => s'

/-- The actions component of a run of the `try` body, whether it
returned or raised (irreducible, as `stateOf`). -/
@[irreducible] def actsOf (r : Except PFErr (PFState × PFActions)) : PFActions :=
  match r with
  | .ok (_, a) => a
  | .error (_, _, a) => a

/-- `MediaWatcher._initial_scan`: walk the tree (given as the list of
`(dirpath, filenames)` pairs `os.walk` yields) and call
`process_folder` on every directory whose filenames include a media
file, threading the watcher state and collecting each call's actions. -/
def initial_scan (env : PFEnv) (cfg : PFConfig) (walk : List (PyPath × List String))
    (s : PFState) : PFState × List (PyPath × PFActions) :=
  walk.foldl
    (fun acc entry =>
      if (entry.2.filter fun f => MEDIA_EXTENSIONS.contains (pyLower (pySuffix f))).isEmpty then
        acc
      else
        let r := process_folder env cfg acc.1 entry.1
        (r.1, acc.2 ++ [(entry.1, r.2)]))
    (s, [])

end MediaWatcher

/-! ## `tray/file_watcher.py`: `DebounceManager`

A pending entry is the dict `{priority, last_update, timer}`; the timer
is represented by the instant it would fire (`deadline`).  Stopping a
`QTimer` removes it from the world, so a cancelled timer simply has its
deadline overwritten.  `_process_event` is what a live timer's timeout
invokes.  Directories are already-absolute path strings (making
`os.path.abspath` the identity). -/

namespace Debounce

/-- One entry of `pending_events`. -/
structure PendingInfo where
  priority : ℤ
  lastUpdate : ℚ
  deadline : ℚ
deriving DecidableEq, Repr

/-- `DebounceManager` mutable state: `pending_events` and the
`recent_events` deque (`maxlen=100`). -/
structure DState where
  pending : List (String × PendingInfo)
  recentEvents : List ℚ
deriving DecidableEq

/-- Append to a `deque(maxlen=100)`: keep the most recent 100. -/
def pushRecent (t : ℚ) (l : List ℚ) : List ℚ :=
  (l ++ [t]).drop ((l ++ [t]).length - 100)

/-- `DebounceManager._is_rate_limited`: more events than
`max_events_per_second` in the last second (the current event already
appended). -/
def is_rate_limited (currentTime : ℚ) (recent : List ℚ) (maxPerSec : Nat) : Bool :=
  (recent.filter fun t => currentTime - t ≤ 1).length > maxPerSec

/-- `DebounceManager.schedule_processing` at time `t`: append to the
rate window and drop if rate-limited; otherwise merge the priority with
`min` when the directory is already pending, stop any existing timer,
and start a fresh timer at the full debounce duration. -/
def schedule_processing (debounce : ℚ) (maxPerSec : Nat) (t : ℚ)
    (directory : String) (priority : ℤ) (s : DState) : DState :=
  let recent := pushRecent t s.recentEvents
  if is_rate_limited t recent maxPerSec then
    { s with recentEvents := recent }
  else
    let newPriority :=
      match s.pending.lookup directory with
      | some info => min info.priority priority
      | none => priority
    { pending := pyDictSet directory ⟨newPriority, t, t + debounce⟩ s.pending,
      recentEvents := recent }

/-- `DebounceManager._process_event`: emit `(directory, priority)` and
delete the pending entry; nothing happens when the directory is not
pending. -/
def process_event (directory : String) (s : DState) :
    Option (String × ℤ) × DState :=
  match s.pending.lookup directory with
  | none => (none, s)
  | some info =>
    (some (directory, info.priority),
     { s with pending := s.pending.filter fun e => !(e.1 == directory) })

/-- Fold a burst of `(time, priority)` events for one directory through
`schedule_processing`. -/
def runSchedules (debounce : ℚ) (maxPerSec : Nat) (directory : String)
    (es : List (ℚ × ℤ)) (s : DState) : DState :=
  es.foldl (fun st e => schedule_processing debounce maxPerSec e.1 directory e.2 st) s

/-- Every event of the burst passes the rate limiter when it arrives
(the claim's "accepted events"). -/
def allAccepted (debounce : ℚ) (maxPerSec : Nat) (directory : String) :
    DState → List (ℚ × ℤ) → Bool
  | _, [] => true
  | s, e :: rest =>
    !(is_rate_limited e.1 (pushRecent e.1 s.recentEvents) maxPerSec) &&
      allAccepted debounce maxPerSec directory
        (schedule_processing debounce maxPerSec e.1 directory e.2 s) rest

/-- Consecutive events are in order and strictly within the debounce
window of their predecessor, so each arrives before the previous timer's
deadline and cancels a timer that has not yet fired. -/
def withinWindow (debounce : ℚ) : List (ℚ × ℤ) → Prop
  | [] => True
  | [_] => True
  | e1 :: e2 :: rest => e1.1 < e2.1 ∧ e2.1 - e1.1 < debounce ∧ withinWindow debounce (e2 :: rest)

end Debounce

/-! ## `media_api.py`: `MediaAPI`

Poster bytes are `List Nat`.  A PIL image is abstracted to its width,
height and mode; decoding and JPEG encoding are oracles (`none` models
the corresponding Python call raising).  Each `_get_*_poster` provider
is abstracted to the bytes its HTTP requests would deliver (`none` for
any of its internal failure paths), to which the source then applies
`_process_poster_image`. -/

namespace MediaAPI

/-- A decoded PIL image, abstracted. -/
structure Img where
  width : Nat
  height : Nat
  mode : String
deriving DecidableEq, Repr

/-- The configuration fields `MediaAPI` reads; a key that is absent or
falsy is `none`/`""`. -/
structure APIConfig where
  USE_MOCK_API : Bool
  USE_CACHE : Bool
  CACHE_DIR : String
  TMDB_API_KEY : Option String
  OMDB_API_KEY : Option String
  MAX_POSTER_SIZE : Nat

/-- `hasattr(config, KEY) and config.KEY` for a string-valued key. -/
def keySet (k : Option String) : Bool :=
  match k with
  | some s => !(s == "")
  | none => false

/-- External world: provider downloads, PIL, and the cache directory's
filesystem. -/
structure APIEnv where
  anilistDownload : String → Option (List Nat)
  tvmazeDownload : String → Option (List Nat)
  tmdbDownload : String → Option (List Nat)
  omdbDownload : String → Option (List Nat)
  mockPoster : String → Option (List Nat)
  decodeImage : List Nat → Option Img
  encodeJpeg : Img → Nat → Option (List Nat)
  fileExists : String → Bool
  readFile : String → Option (List Nat)
  cacheFs : String → Bool

/-- The resize arithmetic of `_process_poster_image`:
`ratio = min(max/w, max/h)`; `int()` truncation is `Int.toNat ∘ floor`
on these non-negative values. -/
def resizeImg (maxSize : Nat) (img : Img) : Img :=
  let ratio : ℚ := min ((maxSize : ℚ) / (img.width : ℚ)) ((maxSize : ℚ) / (img.height : ℚ))
  { img with
    width := (⌊(img.width : ℚ) * ratio⌋).toNat,
    height := (⌊(img.height : ℚ) * ratio⌋).toNat }

/-- `if img.mode != "RGB": img = img.convert("RGB")`. -/
def toRGBImg (img : Img) : Img :=
  if img.mode ≠ "RGB" then { img with mode := "RGB" } else img

/-- `if max_size and (img.width > max_size or img.height > max_size)`:
resize, else keep. -/
def capSizeImg (cfg : APIConfig) (img : Img) : Img :=
  if cfg.MAX_POSTER_SIZE ≠ 0 ∧ (img.width > cfg.MAX_POSTER_SIZE ∨ img.height > cfg.MAX_POSTER_SIZE) then
    resizeImg cfg.MAX_POSTER_SIZE img
  else img

/-- `MediaAPI._process_poster_image`: convert to RGB, cap the longest
side at `MAX_POSTER_SIZE` (skipped when that is falsy), re-encode as
JPEG quality 85 (with `optimize=True`); any failure — a decode or an
encode raising — returns the original data unchanged. -/
def process_poster_image (env : APIEnv) (cfg : APIConfig) (image_data : List Nat) : List Nat :=
  match env.decodeImage image_data with
  | none => image_data
  | some img =>
    match env.encodeJpeg (capSizeImg cfg (toRGBImg img)) 85 with
    | none => image_data
    | some out => out

/-- `MediaAPI._get_anilist_poster`: processed download, `none` on any
failure. -/
def get_anilist_poster (env : APIEnv) (cfg : APIConfig) (title : String) : Option (List Nat) :=
  (env.anilistDownload title).map (process_poster_image env cfg)

/-- `MediaAPI._get_tvmaze_poster`. -/
def get_tvmaze_poster (env : APIEnv) (cfg : APIConfig) (title : String) : Option (List Nat) :=
  (env.tvmazeDownload title).map (process_poster_image env cfg)

/-- `MediaAPI._get_tmdb_poster`. -/
def get_tmdb_poster (env : APIEnv) (cfg : APIConfig) (title : String) : Option (List Nat) :=
  (env.tmdbDownload title).map (process_poster_image env cfg)

/-- `MediaAPI._get_omdb_poster`. -/
def get_omdb_poster (env : APIEnv) (cfg : APIConfig) (title : String) : Option (List Nat) :=
  (env.omdbDownload title).map (process_poster_image env cfg)

/-- Which provider a call went to. -/
inductive ProviderTag where
  | anilist | tvmaze | tmdb | omdb
deriving DecidableEq, Repr

/-- Outcome of one `get_poster` call: the returned bytes, the providers
invoked in order, the cache writes performed, and the resulting
`response_cache`. -/
structure GPResult where
  result : Option (List Nat)
  calls : List ProviderTag
  cacheWrites : List (String × List Nat)
  cache : List (String × String)
deriving DecidableEq

/-- `MediaAPI._cache_poster`: write `cache_dir/{key}.jpg`, then point the
index at it; a filesystem failure (`cacheFs` false) is caught and leaves
the index unchanged. -/
def cache_poster (env : APIEnv) (cfg : APIConfig) (cache_key : String) (data : List Nat)
    (cache : List (String × String)) : List (String × String) × List (String × List Nat) :=
  let poster_path := cfg.CACHE_DIR ++ "/" ++ cache_key ++ ".jpg"
  if env.cacheFs poster_path then
    (pyDictSet cache_key poster_path cache, [(cache_key, data)])
  else (cache, [])

/-- `poster_data = self._get_X_poster(title); if poster_data: cache and
return` — `None` and empty bytes are both falsy. -/
def try_block (env : APIEnv) (cfg : APIConfig) (cache_key : String)
    (poster_data : Option (List Nat)) (cache : List (String × String)) :
    Option (List Nat) × List (String × String) × List (String × List Nat) :=
  match poster_data with
  | some d =>
    if !d.isEmpty then
      let cw := cache_poster env cfg cache_key d cache
      (some d, cw.1, cw.2)
    else (none, cache, [])
  | none => (none, cache, [])

/-- The cache consultation at the top of `get_poster` (lines 108–118):
key in the index and caching enabled, file present, read succeeds.  A
read exception is logged and falls through (`none`). -/
def cache_lookup (env : APIEnv) (cfg : APIConfig) (cache : List (String × String))
    (cache_key : String) : Option (List Nat) :=
  if (cache.lookup cache_key).isSome && cfg.USE_CACHE then
    let poster_path := cfg.CACHE_DIR ++ "/" ++ cache_key ++ ".jpg"
    if env.fileExists poster_path then env.readFile poster_path
    else none
  else none

/-- Final fallback of `get_poster`: AniList when not already tried as
anime. -/
def chain5 (env : APIEnv) (cfg : APIConfig) (cache : List (String × String))
    (cache_key title : String) (is_anime : Bool) (calls : List ProviderTag) : GPResult :=
  if !is_anime then
    match try_block env cfg cache_key (get_anilist_poster env cfg title) cache with
    | (some d, cch, w) => ⟨some d, calls ++ [.anilist], w, cch⟩
    | (none, _, _) => ⟨none, calls ++ [.anilist], [], cache⟩
  else ⟨none, calls, [], cache⟩

/-- `get_poster` step: OMDB when its key is configured. -/
def chain4 (env : APIEnv) (cfg : APIConfig) (cache : List (String × String))
    (cache_key title : String) (is_anime : Bool) (calls : List ProviderTag) : GPResult :=
  if keySet cfg.OMDB_API_KEY then
    match try_block env cfg cache_key (get_omdb_poster env cfg title) cache with
    | (some d, cch, w) => ⟨some d, calls ++ [.omdb], w, cch⟩
    | (none, _, _) => chain5 env cfg cache cache_key title is_anime (calls ++ [.omdb])
  else chain5 env cfg cache cache_key title is_anime calls

/-- `get_poster` step: TMDB when its key is configured. -/
def chain3 (env : APIEnv) (cfg : APIConfig) (cache : List (String × String))
    (cache_key title : String) (is_anime : Bool) (calls : List ProviderTag) : GPResult :=
  if keySet cfg.TMDB_API_KEY then
    match try_block env cfg cache_key (get_tmdb_poster env cfg title) cache with
    | (some d, cch, w) => ⟨some d, calls ++ [.tmdb], w, cch⟩
    | (none, _, _) => chain4 env cfg cache cache_key title is_anime (calls ++ [.tmdb])
  else chain4 env cfg cache cache_key title is_anime calls

/-- `get_poster` step: TVmaze for TV shows. -/
def chain2 (env : APIEnv) (cfg : APIConfig) (cache : List (String × String))
    (cache_key title : String) (is_tv_show is_anime : Bool) (calls : List ProviderTag) : GPResult :=
  if is_tv_show then
    match try_block env cfg cache_key (get_tvmaze_poster env cfg title) cache with
    | (some d, cch, w) => ⟨some d, calls ++ [.tvmaze], w, cch⟩
    | (none, _, _) => chain3 env cfg cache cache_key title is_anime (calls ++ [.tvmaze])
  else chain3 env cfg cache cache_key title is_anime calls

/-- The provider cascade of `get_poster` (lines 120–155), entered on a
cache miss: AniList first for anime, then TVmaze for TV, then TMDB and
OMDB when configured, then AniList as the non-anime fallback. -/
def provider_chain (env : APIEnv) (cfg : APIConfig) (cache : List (String × String))
    (cache_key title : String) (is_tv_show is_anime : Bool) : GPResult :=
  if is_anime then
    match try_block env cfg cache_key (get_anilist_poster env cfg title) cache with
    | (some d, cch, w) => ⟨some d, [.anilist], w, cch⟩
    | (none, _, _) => chain2 env cfg cache cache_key title is_tv_show is_anime [.anilist]
  else chain2 env cfg cache cache_key title is_tv_show is_anime []

/-- `MediaAPI.get_poster`. -/
def get_poster (env : APIEnv) (cfg : APIConfig) (cache : List (String × String))
    (title : String) (is_tv_show is_anime : Bool) : GPResult :=
  if cfg.USE_MOCK_API then ⟨env.mockPoster title, [], [], cache⟩
  else
    let cache_type := if is_anime then "anime" else if is_tv_show then "tv" else "movie"
    let cache_key := "poster_" ++ title ++ "_" ++ cache_type
    match cache_lookup env cfg cache cache_key with
    | some b => ⟨some b, [], [], cache⟩
    | none => provider_chain env cfg cache cache_key title is_tv_show is_anime

/-- Spec-side description of the trial order (§4.3 of the spec /
claim C4), for comparison with the code's cascade. -/
def trial_order (cfg : APIConfig) (is_tv_show is_anime : Bool) : List ProviderTag :=
  (if is_anime then [.anilist] else []) ++
  (if is_tv_show then [.tvmaze] else []) ++
  (if keySet cfg.TMDB_API_KEY then [.tmdb] else []) ++
  (if keySet cfg.OMDB_API_KEY then [.omdb] else []) ++
  (if !is_anime then [.anilist] else [])

/-- The raw download a given provider would deliver, before processing. -/
def providerPoster (env : APIEnv) (cfg : APIConfig) (tag : ProviderTag) (title : String) :
    Option (List Nat) :=
  match tag with
  | .anilist => get_anilist_poster env cfg title
  | .tvmaze => get_tvmaze_poster env cfg title
  | .tmdb => get_tmdb_poster env cfg title
  | .omdb => get_omdb_poster env cfg title

/-- The raw HTTP download a provider's oracle would deliver, before
`_process_poster_image`. -/
def rawDownload (env : APIEnv) (tag : ProviderTag) (title : String) : Option (List Nat) :=
  match tag with
  | .anilist => env.anilistDownload title
  | .tvmaze => env.tvmazeDownload title
  | .tmdb => env.tmdbDownload title
  | .omdb => env.omdbDownload title

/-- Spec-side reference semantics (claim C4): try the given providers in
order, stop and cache at the first non-empty result. -/
def runChain (env : APIEnv) (cfg : APIConfig) (cache : List (String × String))
    (cache_key title : String) : List ProviderTag → List ProviderTag → GPResult
  | [], calls => ⟨none, calls, [], cache⟩
  | tag :: rest, calls =>
    match try_block env cfg cache_key (providerPoster env cfg tag title) cache with
    | (some d, cch, w) => ⟨some d, calls ++ [tag], w, cch⟩
    | (none, _, _) => runChain env cfg cache cache_key title rest (calls ++ [tag])

end MediaAPI

/-! ## Concrete fixtures

Closed worlds used by witnesses and counterexamples.  Rational
timestamps are kept away from `decide` (kernel reduction of `ℚ`
arithmetic hits well-founded `Nat.gcd`), so fixture facts about them are
proved with `norm_num` instead. -/

namespace MediaWatcher

/-- A world in which every fallible oracle raises. -/
def envFail : PFEnv :=
  ⟨100, 100, fun _ => .error "PermissionError", fun _ => false, fun _ => .error "OSError",
   fun _ _ _ => .error "NetworkError", fun _ _ => .error "IOError", fun _ _ => .error "OSError"⟩

/-- A world in which processing succeeds, at time 100. -/
def envOk : PFEnv :=
  ⟨100, 100, fun _ => .ok [("a.mp4", true)], fun _ => false, fun _ => .error "OSError",
   fun _ _ _ => .ok (some [1, 2]), fun _ _ => .ok (), fun _ _ => .ok true⟩

/-- The same world two seconds later. -/
def envOkLater : PFEnv := { envOk with now := 102, now2 := 102 }

/-- A watcher configuration rooted at `root`, no forced updates. -/
def cfgTest : PFConfig := ⟨["root"], false⟩

end MediaWatcher

namespace MediaAPI

/-- A world whose one configured provider (AniList) serves bytes that
PIL cannot decode, so `_process_poster_image` hits its exception path. -/
def envRaw : APIEnv :=
  ⟨fun _ => some [7, 7, 7], fun _ => none, fun _ => none, fun _ => none, fun _ => none,
   fun _ => none, fun _ _ => some [1], fun _ => false, fun _ => none, fun _ => true⟩

/-- Caching on, mock off, no API keys, 1024-pixel cap. -/
def cfgRaw : APIConfig := ⟨false, true, "cache", none, none, 1024⟩

/-- A world for cache-hit tests: the cache file exists and reads as
`[9, 9]`; every provider would also answer. -/
def envHit : APIEnv :=
  ⟨fun _ => some [7], fun _ => some [7], fun _ => some [7], fun _ => some [7], fun _ => none,
   fun _ => none, fun _ _ => some [1], fun _ => true, fun _ => some [9, 9], fun _ => true⟩

/-- A world whose PIL decodes everything to a 2048×1024 CMYK image and
whose JPEG encoder reports the image it was given. -/
def envJpg : APIEnv :=
  ⟨fun _ => some [5], fun _ => none, fun _ => none, fun _ => none, fun _ => none,
   fun _ => some ⟨2048, 1024, "CMYK"⟩, fun img q => some [img.width, img.height, q],
   fun _ => false, fun _ => none, fun _ => true⟩

end MediaAPI

/-! ## Theorems -/

open SmartIconSetter MediaWatcher Debounce MediaAPI

/-- C1, counterexample: the claim says a directory containing exactly
`Movie.part1.mp4` and `Movie.part2.mp4` is classified `movie`; the code
classifies it `series`, because the episode-indicator `"e"` is a
substring of the stem `movie.part1`, so both keyword families match and
the ambiguous default applies. -/
theorem C1_part_example_is_series :
    determine_media_type (some ⟨["Movie.part1.mp4", "Movie.part2.mp4"], []⟩) ≠ "movie" := by
  decide

/-- C1 (amended): `determine_media_type` classifies an existing
directory `series` when a non-ignored immediate subdirectory contains a
media file; `movie` when there is exactly one root media file and no
media subdirectory; for several root media files, `movie` when
part-indicator terms occur in the lowercased stems and episode-indicator
terms do not, `series` when episode terms occur and part terms do not,
`series` in the both/neither case; `unknown` with no root media files
and no media subdirectories.  `{ep01.mp4, ep02.mp4}` is `series` and the
empty directory `unknown`; `{Movie.part1.mp4, Movie.part2.mp4}` is
`series` (not `movie`), since the episode term `"e"` also matches. -/
theorem C1_determine_media_type (dir : MediaDirectory) :
    (has_subdirectories_with_media dir.subdirs = true →
      determine_media_type (some dir) = "series")
    ∧ (has_subdirectories_with_media dir.subdirs = false →
      (get_media_files_in_directory dir.rootFiles).length = 1 →
      determine_media_type (some dir) = "movie")
    ∧ ((get_media_files_in_directory dir.rootFiles).length > 1 →
      has_part_pattern ((get_media_files_in_directory dir.rootFiles).map fun f => pyLower (pyStem f)) = true →
      has_episode_pattern ((get_media_files_in_directory dir.rootFiles).map fun f => pyLower (pyStem f)) = false →
      has_subdirectories_with_media dir.subdirs = false →
      determine_media_type (some dir) = "movie")
    ∧ ((get_media_files_in_directory dir.rootFiles).length > 1 →
      has_episode_pattern ((get_media_files_in_directory dir.rootFiles).map fun f => pyLower (pyStem f)) = true →
      has_part_pattern ((get_media_files_in_directory dir.rootFiles).map fun f => pyLower (pyStem f)) = false →
      determine_media_type (some dir) = "series")
    ∧ ((get_media_files_in_directory dir.rootFiles).length > 1 →
      has_episode_pattern ((get_media_files_in_directory dir.rootFiles).map fun f => pyLower (pyStem f)) =
        has_part_pattern ((get_media_files_in_directory dir.rootFiles).map fun f => pyLower (pyStem f)) →
      determine_media_type (some dir) = "series")
    ∧ ((get_media_files_in_directory dir.rootFiles).length = 0 →
      has_subdirectories_with_media dir.subdirs = false →
      determine_media_type (some dir) = "unknown")
    ∧ determine_media_type (some ⟨["Movie.part1.mp4", "Movie.part2.mp4"], []⟩) = "series"
    ∧ determine_media_type (some ⟨["ep01.mp4", "ep02.mp4"], []⟩) = "series"
    ∧ determine_media_type (some ⟨[], []⟩) = "unknown" := by
  refine ⟨?_, ?_, ?_, ?_, ?_, ?_, by decide, by decide, by decide⟩
  · intro h; simp [determine_media_type, h]
  · intro h h1; simp [determine_media_type, h, h1]
  · intro h hp he hs; simp [determine_media_type, hs, h, hp, he]
  · intro h he hp; simp [determine_media_type, h, he, hp]; omega
  · intro h heq; simp [determine_media_type, h, heq]; omega
  · intro h hs; simp [determine_media_type, hs, h]

/-- C1, witness: the amended theorem applied to a series layout with a
season subdirectory. -/
theorem C1_determine_media_type_witness :
    determine_media_type (some ⟨[], [("Season 1", ["ep1.mp4"])]⟩) = "series" :=
  (C1_determine_media_type ⟨[], [("Season 1", ["ep1.mp4"])]⟩).1 (by decide)

/-- The name of a path ending in `x` is `x`. -/
lemma pathName_concat (l : List String) (x : String) : pathName (l ++ [x]) = x := by
  simp [pathName]

/-- C7: title inference round-trips: `"GameOfThrones"` splits to
`"Game Of Thrones"`; `"The.Matrix.1999.1080p.BluRay.x264"` cleans to
`"The Matrix 1999"` with the year retained; and inference on
`Show/Season2` equals inference on `Show` directly (here under the
claim's hypothesis that `Show`'s parent `g` is not a sentinel; the
equality in fact holds for any `g`). -/
theorem C7_infer_title_roundtrip (g : String)
    (_hg : root_sentinels.contains (pyLower g) = false) :
    infer_title ["GameOfThrones"] = "Game Of Thrones"
    ∧ infer_title ["The.Matrix.1999.1080p.BluRay.x264"] = "The Matrix 1999"
    ∧ infer_title [g, "Show", "Season2"] = infer_title [g, "Show"] :=
  ⟨by decide, by decide, rfl⟩

/-- C7, witness: the round-trip theorem at the concrete parent
`"Library"`. -/
theorem C7_infer_title_roundtrip_witness :
    root_sentinels.contains (pyLower "Library") = false
    ∧ infer_title ["Library", "Show", "Season2"] = infer_title ["Library", "Show"] :=
  ⟨by decide, (C7_infer_title_roundtrip "Library" (by decide)).2.2⟩

/-- C8, counterexample: for the season folder `"Season 2"` under the
sentinel parent `"media"`, inference does not return the season-folder
name itself — the fall-through cleanup strips `Season\s\d+` and yields
the empty string. -/
theorem C8_sentinel_counterexample : infer_title ["media", "Season 2"] ≠ "Season 2" := by
  decide

/-- C8 (amended): when the leaf matches `^Season\s*\d+$` and the parent
is a library-root sentinel, `_infer_title` does not recurse on the
parent: it runs the ordinary cleanup on the season-folder name itself.
That returns the name unchanged when it contains no whitespace
(`"Season2"`), but strips a space-separated `"Season 2"` to the empty
string. -/
theorem C8_sentinel_parent (ps : List String) (parent name : String)
    (hseason : RE.matchAt0 seasonFolderRE name = true)
    (hsent : root_sentinels.contains (pyLower parent) = true) :
    infer_title (ps ++ [parent, name]) = infer_name name
    ∧ infer_title ["media", "Season2"] = "Season2"
    ∧ infer_title ["media", "Season 2"] = "" := by
  refine ⟨?_, by decide, by decide⟩
  have hsplit : ps ++ [parent, name] = (ps ++ [parent]) ++ [name] := by simp
  rcases hps : ps ++ [parent] with _ | ⟨h, t⟩
  · exact absurd hps (by simp)
  · rw [hsplit, hps]
    show inferTitleFuel ((h :: t ++ [name]).length + 1) (h :: (t ++ [name])) = infer_name name
    rw [inferTitleFuel]
    have h1 : pathName (h :: (t ++ [name])) = name := by
      have := pathName_concat (h :: t) name; simpa using this
    have h2 : (h :: (t ++ [name])).dropLast = h :: t := by
      have := @List.dropLast_concat String (h :: t) name
      simpa using this
    have h3 : pathName ((h :: (t ++ [name])).dropLast) = parent := by
      rw [h2, ← hps]; exact pathName_concat ps parent
    rw [h1, h3, hsent]
    simp [hseason]

/-- C8, witness: the amended theorem at `media/Season2`. -/
theorem C8_sentinel_parent_witness :
    infer_title ([] ++ ["media", "Season2"]) = infer_name "Season2" :=
  (C8_sentinel_parent [] "media" "Season2" (by decide) (by decide)).1

/-! ### Association-list (Python dict) lemmas -/

lemma lookup_filter_ne {α : Type} (k k' : String) (h : ¬ k = k') (d : List (String × α)) :
    (d.filter fun e => !(e.1 == k')).lookup k = d.lookup k := by
  induction d with
  | nil => rfl
  | cons e t ih =>
    by_cases he : e.1 = k'
    · have h1 : (k == k') = false := by simp [h]
      simp [List.filter, he, List.lookup, h1, ih]
    · simp only [List.filter]
      have hne : (!(e.1 == k')) = true := by simp [he]
      rw [hne]
      simp only [List.lookup]
      by_cases hk : k = e.1
      · simp [hk]
      · have h1 : (k == e.1) = false := by simp [hk]
        simp [h1, ih]

lemma pyDictSet_lookup_self {α : Type} (k : String) (v : α) (d : List (String × α)) :
    (pyDictSet k v d).lookup k = some v := by
  simp [pyDictSet, List.lookup]

lemma pyDictSet_lookup_ne {α : Type} (k k' : String) (v : α) (d : List (String × α))
    (h : ¬ k = k') : (pyDictSet k' v d).lookup k = d.lookup k := by
  have h1 : (k == k') = false := by simp [h]
  simp [pyDictSet, List.lookup, h1, lookup_filter_ne k k' h d]

lemma pyDictSet_keys_nodup {α : Type} (k : String) (v : α) (d : List (String × α))
    (h : (d.map Prod.fst).Nodup) : ((pyDictSet k v d).map Prod.fst).Nodup := by
  simp only [pyDictSet, List.map_cons, List.nodup_cons]
  constructor
  · intro hmem
    rcases List.mem_map.mp hmem with ⟨e, he, hk⟩
    have := (List.mem_filter.mp he).2
    simp [hk] at this
  · exact ((List.filter_sublist d).map Prod.fst).nodup h

namespace Debounce

lemma schedule_lookup_self (debounce : ℚ) (maxPerSec : Nat) (t : ℚ) (dir : String) (p : ℤ)
    (s : DState)
    (hacc : is_rate_limited t (pushRecent t s.recentEvents) maxPerSec = false) :
    (schedule_processing debounce maxPerSec t dir p s).pending.lookup dir =
      some ⟨(match s.pending.lookup dir with
             | some info => min info.priority p
             | none => p), t, t + debounce⟩ := by
  simp [schedule_processing, hacc, pyDictSet_lookup_self]

lemma schedule_keys_nodup (debounce : ℚ) (maxPerSec : Nat) (t : ℚ) (dir : String) (p : ℤ)
    (s : DState) (h : (s.pending.map Prod.fst).Nodup) :
    ((schedule_processing debounce maxPerSec t dir p s).pending.map Prod.fst).Nodup := by
  unfold schedule_processing
  by_cases hr : is_rate_limited t (pushRecent t s.recentEvents) maxPerSec = true
  · simpa [hr] using h
  · simp only [hr, if_false]
    exact pyDictSet_keys_nodup _ _ _ h

lemma runSchedules_lookup (debounce : ℚ) (maxPerSec : Nat) (dir : String) :
    ∀ (es : List (ℚ × ℤ)) (s : DState) (pr : ℤ) (lu dl : ℚ),
    s.pending.lookup dir = some ⟨pr, lu, dl⟩ →
    allAccepted debounce maxPerSec dir s es = true →
    (runSchedules debounce maxPerSec dir es s).pending.lookup dir =
      some ⟨es.foldl (fun a e => min a e.2) pr,
            es.foldl (fun _ e => e.1) lu,
            es.foldl (fun _ e => e.1 + debounce) dl⟩ := by
  intro es
  induction es with
  | nil => intro s pr lu dl h _; simpa [runSchedules] using h
  | cons e rest ih =>
    intro s pr lu dl h hacc
    simp only [allAccepted, Bool.and_eq_true, Bool.not_eq_true'] at hacc
    have hstep := schedule_lookup_self debounce maxPerSec e.1 dir e.2 s hacc.1
    rw [h] at hstep
    have := ih (schedule_processing debounce maxPerSec e.1 dir e.2 s)
      (min pr e.2) e.1 (e.1 + debounce) hstep hacc.2
    simpa [runSchedules] using this

lemma runSchedules_nodup (debounce : ℚ) (maxPerSec : Nat) (dir : String) :
    ∀ (es : List (ℚ × ℤ)) (s : DState), (s.pending.map Prod.fst).Nodup →
    ((runSchedules debounce maxPerSec dir es s).pending.map Prod.fst).Nodup := by
  intro es
  induction es with
  | nil => intro s h; simpa [runSchedules] using h
  | cons e rest ih =>
    intro s h
    have := ih (schedule_processing debounce maxPerSec e.1 dir e.2 s)
      (schedule_keys_nodup _ _ _ _ _ _ h)
    simpa [runSchedules] using this

lemma lookup_filter_self {α : Type} (k : String) (d : List (String × α)) :
    (d.filter fun e => !(e.1 == k)).lookup k = none := by
  induction d with
  | nil => rfl
  | cons e t ih =>
    by_cases he : e.1 = k
    · simp [List.filter, he, ih]
    · have h1 : (!(e.1 == k)) = true := by simp [he]
      have h2 : (k == e.1) = false := by simp [Ne.symm he]
      simp only [List.filter, h1]
      simp [List.lookup, h2, ih]

lemma foldl_min_le (l : List (ℚ × ℤ)) : ∀ (a : ℤ),
    l.foldl (fun a e => min a e.2) a ≤ a ∧
    ∀ q ∈ l.map Prod.snd, l.foldl (fun a e => min a e.2) a ≤ q := by
  induction l with
  | nil => intro a; simp
  | cons e rest ih =>
    intro a
    have h := ih (min a e.2)
    constructor
    · exact le_trans (by simpa using h.1) (min_le_left a e.2)
    · intro q hq
      rcases List.mem_cons.mp hq with h1 | h1
      · subst h1
        exact le_trans (by simpa using h.1) (min_le_right a e.2)
      · exact h.2 q h1

lemma foldl_min_mem (l : List (ℚ × ℤ)) : ∀ (a : ℤ),
    l.foldl (fun a e => min a e.2) a = a ∨
    l.foldl (fun a e => min a e.2) a ∈ l.map Prod.snd := by
  induction l with
  | nil => intro a; simp
  | cons e rest ih =>
    intro a
    rcases ih (min a e.2) with h | h
    · by_cases hm : a ≤ e.2
      · left; simpa [min_eq_left hm] using h
      · right
        rw [List.map_cons]
        have hfold : (e :: rest).foldl (fun a e => min a e.2) a = e.2 := by
          simp only [List.foldl_cons]
          rw [h, min_eq_right (le_of_not_le hm)]
        rw [hfold]
        exact List.mem_cons_self _ _
    · right; simp [h]

lemma foldl_deadline (debounce : ℚ) :
    ∀ (es : List (ℚ × ℤ)) (t : ℚ),
    es.foldl (fun _ e => e.1 + debounce) (t + debounce) =
      (es.foldl (fun _ e => e.1) t) + debounce := by
  intro es
  induction es with
  | nil => intro t; rfl
  | cons e rest ih => intro t; simpa using ih e.1

/-- C2: for every burst of accepted events for one directory — each
arriving within less than the debounce window of its predecessor — the
debouncer keeps at most one pending entry per directory (unique keys,
preserved by every step); a new event for an already-pending directory
replaces the timer with one at the full debounce duration and merges the
priority with `min`; the coalesced state holds the minimum of the
burst's priorities with the last event's deadline; the single timer
firing emits exactly one downstream event carrying that minimum, after
which the directory has no pending entry and a further firing emits
nothing. -/
theorem C2_debounce_coalescing (debounce : ℚ) (maxPerSec : Nat) (dir : String) (s0 : DState)
    (t : ℚ) (p : ℤ) (es : List (ℚ × ℤ))
    (hnodup : (s0.pending.map Prod.fst).Nodup)
    (hstart : s0.pending.lookup dir = none)
    (hacc : allAccepted debounce maxPerSec dir s0 ((t, p) :: es) = true)
    (_hwin : withinWindow debounce ((t, p) :: es)) :
    (∀ (s : DState) (t' : ℚ) (p' : ℤ) (info : PendingInfo),
      s.pending.lookup dir = some info →
      is_rate_limited t' (pushRecent t' s.recentEvents) maxPerSec = false →
      (schedule_processing debounce maxPerSec t' dir p' s).pending.lookup dir =
        some ⟨min info.priority p', t', t' + debounce⟩)
    ∧ (∀ (s : DState) (t' : ℚ) (p' : ℤ), (s.pending.map Prod.fst).Nodup →
        ((schedule_processing debounce maxPerSec t' dir p' s).pending.map Prod.fst).Nodup)
    ∧ ((runSchedules debounce maxPerSec dir ((t, p) :: es) s0).pending.map Prod.fst).Nodup
    ∧ (runSchedules debounce maxPerSec dir ((t, p) :: es) s0).pending.lookup dir =
        some ⟨es.foldl (fun a e => min a e.2) p,
              es.foldl (fun _ e => e.1) t,
              (es.foldl (fun _ e => e.1) t) + debounce⟩
    ∧ (process_event dir (runSchedules debounce maxPerSec dir ((t, p) :: es) s0)).1 =
        some (dir, es.foldl (fun a e => min a e.2) p)
    ∧ (es.foldl (fun a e => min a e.2) p ∈ p :: es.map Prod.snd
        ∧ ∀ q ∈ p :: es.map Prod.snd, es.foldl (fun a e => min a e.2) p ≤ q)
    ∧ (process_event dir (runSchedules debounce maxPerSec dir ((t, p) :: es) s0)).2.pending.lookup dir = none
    ∧ (process_event dir
        (process_event dir (runSchedules debounce maxPerSec dir ((t, p) :: es) s0)).2).1 = none := by
  simp only [allAccepted, Bool.and_eq_true, Bool.not_eq_true'] at hacc
  have hfirst := schedule_lookup_self debounce maxPerSec t dir p s0 hacc.1
  rw [hstart] at hfirst
  have hrun : (runSchedules debounce maxPerSec dir ((t, p) :: es) s0).pending.lookup dir =
      some ⟨es.foldl (fun a e => min a e.2) p,
            es.foldl (fun _ e => e.1) t,
            es.foldl (fun _ e => e.1 + debounce) (t + debounce)⟩ := by
    have := runSchedules_lookup debounce maxPerSec dir es
      (schedule_processing debounce maxPerSec t dir p s0) p t (t + debounce) hfirst hacc.2
    simpa [runSchedules] using this
  rw [foldl_deadline debounce es t] at hrun
  have hfire : process_event dir (runSchedules debounce maxPerSec dir ((t, p) :: es) s0) =
      (some (dir, es.foldl (fun a e => min a e.2) p),
       ⟨(runSchedules debounce maxPerSec dir ((t, p) :: es) s0).pending.filter
          (fun e => !(e.1 == dir)),
        (runSchedules debounce maxPerSec dir ((t, p) :: es) s0).recentEvents⟩) := by
    simp [process_event, hrun]
  refine ⟨?_, ?_, ?_, hrun, ?_, ?_, ?_, ?_⟩
  · intro s t' p' info hlook hr
    have := schedule_lookup_self debounce maxPerSec t' dir p' s hr
    rw [hlook] at this
    exact this
  · intro s t' p' hn
    exact schedule_keys_nodup debounce maxPerSec t' dir p' s hn
  · exact runSchedules_nodup debounce maxPerSec dir ((t, p) :: es) s0 hnodup
  · rw [hfire]
  · constructor
    · rcases foldl_min_mem es p with h | h <;> simp [h]
    · intro q hq
      rcases List.mem_cons.mp hq with h | h
      · rw [h]; exact (foldl_min_le es p).1
      · exact (foldl_min_le es p).2 q h
  · rw [hfire]; exact lookup_filter_self dir _
  · rw [hfire]
    simp only [process_event]
    rw [lookup_filter_self dir _]

/-- C2, witness: a one-event burst at time 0 with priority 2 fires once
with priority 2. -/
theorem C2_witness :
    allAccepted 5 10 "d" ⟨[], []⟩ [(0, 2)] = true
    ∧ withinWindow 5 [(0, 2)]
    ∧ (process_event "d" (runSchedules 5 10 "d" [(0, 2)] ⟨[], []⟩)).1 =
        some ("d", ([] : List (ℚ × ℤ)).foldl (fun a e => min a e.2) 2) := by
  have hacc : allAccepted 5 10 "d" ⟨[], []⟩ [(0, 2)] = true := by
    norm_num [allAccepted, is_rate_limited, pushRecent, schedule_processing]
  refine ⟨hacc, trivial, ?_⟩
  exact (C2_debounce_coalescing 5 10 "d" ⟨[], []⟩ 0 2 []
    (by simp) (by simp) hacc trivial).2.2.2.2.1

end Debounce
end AutoFolderIcon
namespace AutoFolderIcon

lemma pyDictSet_lookup_twice {α : Type} (k k' : String) (v : α) (d : List (String × α)) :
    (pyDictSet k' v (pyDictSet k v d)).lookup k = some v := by
  by_cases h : k = k'
  · rw [h]; exact pyDictSet_lookup_self k' v _
  · rw [pyDictSet_lookup_ne k k' v _ h]; exact pyDictSet_lookup_self k v d

namespace MediaWatcher

lemma stateOf_ok (r : PFState × PFActions) : stateOf (.ok r) = r.1 := by
  obtain ⟨s', a⟩ := r
  unfold stateOf
  rfl

lemma stateOf_error (e : PFErr) : stateOf (.error e) = e.2.1 := by
  obtain ⟨m, s', a⟩ := e
  unfold stateOf
  rfl

lemma fetch_state (env : PFEnv) (s : PFState) (fp target : PyPath) :
    stateOf (process_folder_fetch env s fp target) = s := by
  simp only [process_folder_fetch]
  repeat' split
  all_goals simp [stateOf_ok, stateOf_error]

lemma process_folder_body_recent (env : PFEnv) (cfg : PFConfig) (s : PFState) (p : PyPath)
    (h : ¬ (env.now - ((s.recent.lookup (pathStr p)).getD 0) < REPROCESS_WINDOW)) :
    (stateOf (process_folder_body env cfg s p)).recent.lookup (pathStr p) = some env.now := by
  simp only [process_folder_body]
  rw [if_neg h]
  repeat' split
  all_goals
    first
      | (rw [fetch_state]; simp [pyDictSet_lookup_self, pyDictSet_lookup_twice])
      | simp [stateOf_ok, stateOf_error, pyDictSet_lookup_self, pyDictSet_lookup_twice]

lemma process_folder_sets_recent (env : PFEnv) (cfg : PFConfig) (s : PFState) (p : PyPath)
    (h : ¬ (env.now - ((s.recent.lookup (pathStr p)).getD 0) < REPROCESS_WINDOW)) :
    (process_folder env cfg s p).1.recent.lookup (pathStr p) = some env.now := by
  have hb := process_folder_body_recent env cfg s p h
  unfold process_folder
  rcases hr : process_folder_body env cfg s p with ⟨e, s', a⟩ | ⟨s', a⟩ <;>
    rw [hr] at hb <;> simpa [stateOf_ok, stateOf_error] using hb

end MediaWatcher
end AutoFolderIcon
namespace AutoFolderIcon
namespace MediaWatcher

/-- C3: a first `process_folder` call on a fresh directory stamps it in
`recently_processed`; a second call within the 5-second reprocess
window — under any oracle behaviour whatsoever — returns with the state
unchanged and performs no actions at all: no poster request, no icon
application, no poster write. -/
theorem C3_reprocess_window (env1 env2 : PFEnv) (cfg : PFConfig) (s : PFState) (p : PyPath)
    (h1 : ¬ (env1.now - ((s.recent.lookup (pathStr p)).getD 0) < REPROCESS_WINDOW))
    (h2 : env2.now - env1.now < REPROCESS_WINDOW) :
    process_folder env2 cfg (process_folder env1 cfg s p).1 p =
      ((process_folder env1 cfg s p).1, PFActions.none)
    ∧ PFActions.none.posterRequests = [] ∧ PFActions.none.iconSets = []
    ∧ PFActions.none.posterWrites = [] := by
  refine ⟨?_, rfl, rfl, rfl⟩
  have hk := process_folder_sets_recent env1 cfg s p h1
  set s1 := (process_folder env1 cfg s p).1 with hs1
  unfold process_folder process_folder_body
  simp only [hk, h2, Option.getD_some, if_true]

/-- C9: no exception escapes `process_folder` — a body that raises is
converted into a normal return whose log carries the offending path —
and the initial scan produces one outcome per media-bearing directory
of the walk for every oracle behaviour, so one failing folder never
aborts the batch. -/
theorem C9_exceptions_contained :
    (∀ (env : PFEnv) (cfg : PFConfig) (s : PFState) (p : PyPath) (e : String)
        (s' : PFState) (a : PFActions),
      process_folder_body env cfg s p = .error (e, s', a) →
      process_folder env cfg s p =
        (s', { a with errorsLogged := a.errorsLogged ++ [pathStr p] }))
    ∧ (∀ (env : PFEnv) (cfg : PFConfig) (walk : List (PyPath × List String)) (s : PFState),
      (initial_scan env cfg walk s).2.map Prod.fst =
        (walk.filter fun w =>
          !(w.2.filter fun f => MEDIA_EXTENSIONS.contains (pyLower (pySuffix f))).isEmpty).map
          Prod.fst) := by
  constructor
  · intro env cfg s p e s' a heq
    unfold process_folder
    rw [heq]
  · intro env cfg walk s
    suffices h : ∀ (w : List (PyPath × List String)) (st : PFState) (acc : List (PyPath × PFActions)),
        ((w.foldl
          (fun acc entry =>
            if (entry.2.filter fun f => MEDIA_EXTENSIONS.contains (pyLower (pySuffix f))).isEmpty then
              acc
            else
              let r := process_folder env cfg acc.1 entry.1
              (r.1, acc.2 ++ [(entry.1, r.2)])) (st, acc)).2.map Prod.fst =
          acc.map Prod.fst ++
            (w.filter fun w' =>
              !(w'.2.filter fun f => MEDIA_EXTENSIONS.contains (pyLower (pySuffix f))).isEmpty).map
              Prod.fst) by
      simpa [initial_scan] using h walk s []
    intro w
    induction w with
    | nil => intro st acc; simp
    | cons entry rest ih =>
      intro st acc
      rw [List.foldl_cons, List.filter_cons]
      by_cases hm :
          (entry.2.filter fun f => MEDIA_EXTENSIONS.contains (pyLower (pySuffix f))).isEmpty
      · simp only [hm, Bool.not_true, if_true, if_false, Bool.false_eq_true, reduceIte]
        exact ih st acc
      · have hm' :
            (entry.2.filter fun f => MEDIA_EXTENSIONS.contains (pyLower (pySuffix f))).isEmpty
              = false := by
          simpa using hm
        simp only [hm', Bool.not_false, if_true, Bool.false_eq_true, reduceIte]
        rw [ih]
        simp

end MediaWatcher
end AutoFolderIcon
namespace AutoFolderIcon
namespace MediaWatcher

theorem C3_witness :
    process_folder envOkLater cfgTest (process_folder envOk cfgTest ⟨[]⟩ ["root", "Show"]).1
        ["root", "Show"] =
      ((process_folder envOk cfgTest ⟨[]⟩ ["root", "Show"]).1, PFActions.none) :=
  (C3_reprocess_window envOk envOkLater cfgTest ⟨[]⟩ ["root", "Show"]
    (by norm_num [envOk, REPROCESS_WINDOW])
    (by norm_num [envOk, envOkLater, REPROCESS_WINDOW])).1

theorem C9_witness :
    process_folder envFail cfgTest ⟨[]⟩ ["root", "Show"] =
      (⟨pyDictSet (pathStr ["root", "Show"]) 100 []⟩,
       { PFActions.none with
          errorsLogged := PFActions.none.errorsLogged ++ [pathStr ["root", "Show"]] }) := by
  have hbody : process_folder_body envFail cfgTest ⟨[]⟩ ["root", "Show"] =
      .error ("PermissionError", ⟨pyDictSet (pathStr ["root", "Show"]) 100 []⟩, PFActions.none) := by
    simp only [process_folder_body, envFail, cfgTest, List.lookup_nil, Option.getD_none]
    rw [if_neg (by norm_num [REPROCESS_WINDOW] : ¬ ((100 : ℚ) - 0 < REPROCESS_WINDOW))]
    rw [if_neg (by decide : ¬ (pathStr ["root", "Show"] = pathStr ["root"]))]
  exact (C9_exceptions_contained).1 envFail cfgTest ⟨[]⟩ ["root", "Show"] "PermissionError"
    ⟨pyDictSet (pathStr ["root", "Show"]) 100 []⟩ PFActions.none hbody

end MediaWatcher
end AutoFolderIcon
namespace AutoFolderIcon
namespace MediaAPI

lemma providerPoster_process (env : APIEnv) (cfg : APIConfig) (tag : ProviderTag) (title : String) :
    providerPoster env cfg tag title =
      (rawDownload env tag title).map (process_poster_image env cfg) := by
  cases tag <;> rfl

lemma chain5_eq (env : APIEnv) (cfg : APIConfig) (cache : List (String × String))
    (key title : String) (is_anime : Bool) (calls : List ProviderTag) :
    chain5 env cfg cache key title is_anime calls =
      runChain env cfg cache key title (if !is_anime then [.anilist] else []) calls := by
  cases is_anime
  · rcases htry : try_block env cfg key (get_anilist_poster env cfg title) cache with ⟨_ | d, cch, w⟩ <;>
      simp [chain5, runChain, providerPoster, htry]
  · simp [chain5, runChain]

lemma chain4_eq (env : APIEnv) (cfg : APIConfig) (cache : List (String × String))
    (key title : String) (is_anime : Bool) (calls : List ProviderTag) :
    chain4 env cfg cache key title is_anime calls =
      runChain env cfg cache key title
        ((if keySet cfg.OMDB_API_KEY then [.omdb] else []) ++
          (if !is_anime then [.anilist] else [])) calls := by
  by_cases hk : keySet cfg.OMDB_API_KEY
  · rcases htry : try_block env cfg key (get_omdb_poster env cfg title) cache with ⟨_ | d, cch, w⟩ <;>
      simp [chain4, hk, runChain, providerPoster, htry, chain5_eq]
  · simp [chain4, hk, chain5_eq]

lemma chain3_eq (env : APIEnv) (cfg : APIConfig) (cache : List (String × String))
    (key title : String) (is_anime : Bool) (calls : List ProviderTag) :
    chain3 env cfg cache key title is_anime calls =
      runChain env cfg cache key title
        ((if keySet cfg.TMDB_API_KEY then [.tmdb] else []) ++
          (if keySet cfg.OMDB_API_KEY then [.omdb] else []) ++
          (if !is_anime then [.anilist] else [])) calls := by
  by_cases hk : keySet cfg.TMDB_API_KEY
  · rcases htry : try_block env cfg key (get_tmdb_poster env cfg title) cache with ⟨_ | d, cch, w⟩ <;>
      simp [chain3, hk, runChain, providerPoster, htry, chain4_eq]
  · simp [chain3, hk, chain4_eq]

lemma chain2_eq (env : APIEnv) (cfg : APIConfig) (cache : List (String × String))
    (key title : String) (is_tv_show is_anime : Bool) (calls : List ProviderTag) :
    chain2 env cfg cache key title is_tv_show is_anime calls =
      runChain env cfg cache key title
        ((if is_tv_show then [.tvmaze] else []) ++
          (if keySet cfg.TMDB_API_KEY then [.tmdb] else []) ++
          (if keySet cfg.OMDB_API_KEY then [.omdb] else []) ++
          (if !is_anime then [.anilist] else [])) calls := by
  by_cases htv : is_tv_show
  · rcases htry : try_block env cfg key (get_tvmaze_poster env cfg title) cache with ⟨_ | d, cch, w⟩ <;>
      simp [chain2, htv, runChain, providerPoster, htry, chain3_eq]
  · simp [chain2, htv, chain3_eq]

lemma provider_chain_eq (env : APIEnv) (cfg : APIConfig) (cache : List (String × String))
    (key title : String) (is_tv_show is_anime : Bool) :
    provider_chain env cfg cache key title is_tv_show is_anime =
      runChain env cfg cache key title (trial_order cfg is_tv_show is_anime) [] := by
  cases is_anime
  · simp [provider_chain, trial_order, chain2_eq]
  · rcases htry : try_block env cfg key (get_anilist_poster env cfg title) cache with ⟨_ | d, cch, w⟩ <;>
      simp [provider_chain, trial_order, runChain, providerPoster, htry, chain2_eq]

end MediaAPI
end AutoFolderIcon
namespace AutoFolderIcon
namespace MediaAPI

lemma runChain_writes (env : APIEnv) (cfg : APIConfig) (cache : List (String × String))
    (key title : String) :
    ∀ (l : List ProviderTag) (calls : List ProviderTag) (w : String × List Nat),
    w ∈ (runChain env cfg cache key title l calls).cacheWrites →
    w.1 = key ∧
    (∃ tag ∈ l, ∃ raw, rawDownload env tag title = some raw ∧
      w.2 = process_poster_image env cfg raw ∧
      (runChain env cfg cache key title l calls).result = some w.2) := by
  intro l
  induction l with
  | nil => intro calls w hw; simp [runChain] at hw
  | cons tag rest ih =>
    intro calls w hw
    rcases hdl : providerPoster env cfg tag title with _ | d
    · rw [runChain] at hw ⊢
      simp only [try_block, hdl] at hw ⊢
      rcases ih (calls ++ [tag]) w hw with ⟨h1, tag', ht', h2⟩
      exact ⟨h1, tag', List.mem_cons_of_mem _ ht', h2⟩
    · by_cases hde : d.isEmpty
      · rw [runChain] at hw ⊢
        simp only [try_block, hdl, hde, Bool.not_true, Bool.false_eq_true, reduceIte] at hw ⊢
        rcases ih (calls ++ [tag]) w hw with ⟨h1, tag', ht', h2⟩
        exact ⟨h1, tag', List.mem_cons_of_mem _ ht', h2⟩
      · have hde' : d.isEmpty = false := by simpa using hde
        rw [runChain] at hw ⊢
        simp only [try_block, hdl, hde', Bool.not_false, if_true] at hw ⊢
        unfold cache_poster at hw
        by_cases hfs : env.cacheFs (cfg.CACHE_DIR ++ "/" ++ key ++ ".jpg")
        · simp only [hfs, if_true, List.mem_singleton] at hw
          subst hw
          have hmap : (rawDownload env tag title).map (process_poster_image env cfg) = some d := by
            rw [← providerPoster_process env cfg tag title, hdl]
          rcases Option.map_eq_some'.mp hmap with ⟨raw, hraw, hproc⟩
          exact ⟨rfl, tag, List.mem_cons_self _ _, raw, hraw, hproc.symm, by simp [hfs]⟩
        · simp [hfs] at hw

lemma runChain_calls (env : APIEnv) (cfg : APIConfig) (cache : List (String × String))
    (key title : String) :
    ∀ (l : List ProviderTag) (calls : List ProviderTag),
    ∃ suf, (runChain env cfg cache key title l calls).calls = calls ++ suf ∧
      suf.head? = l.head? := by
  intro l
  induction l with
  | nil => intro calls; exact ⟨[], by simp [runChain], rfl⟩
  | cons tag rest ih =>
    intro calls
    rcases htry : try_block env cfg key (providerPoster env cfg tag title) cache with ⟨r, cch, wr⟩
    rcases r with _ | d
    · rcases ih (calls ++ [tag]) with ⟨suf, hsuf, _⟩
      refine ⟨tag :: suf, ?_, rfl⟩
      rw [runChain, htry]
      simpa using hsuf
    · exact ⟨[tag], by rw [runChain, htry], rfl⟩

end MediaAPI
end AutoFolderIcon
namespace AutoFolderIcon
namespace MediaAPI

/-- C4: with mock mode off and a cache miss, `get_poster` for an anime
title equals the reference chain over the claimed trial order — AniList
first, then TVmaze if a series, then TMDB and OMDB only when their keys
are configured, first non-empty processed result winning with no later
provider called — with no trailing AniList retry when `isAnime` is true;
every cache write uses the `anime` kind tag regardless of which provider
won.  The last conjunct settles the non-anime clause against the
program: on a cache miss for its own key, `get_poster` with
`isAnime = false` equals the reference chain over the non-anime order,
which ends with the trailing AniList fallback. -/
theorem C4_provider_order (env : APIEnv) (cfg : APIConfig) (cache : List (String × String))
    (title : String) (is_tv : Bool)
    (hmock : cfg.USE_MOCK_API = false)
    (hmiss : cache_lookup env cfg cache ("poster_" ++ title ++ "_" ++ "anime") = none) :
    get_poster env cfg cache title is_tv true =
      runChain env cfg cache ("poster_" ++ title ++ "_" ++ "anime") title
        (trial_order cfg is_tv true) []
    ∧ trial_order cfg is_tv true =
        [.anilist] ++ (if is_tv then [.tvmaze] else []) ++
          (if keySet cfg.TMDB_API_KEY then [.tmdb] else []) ++
          (if keySet cfg.OMDB_API_KEY then [.omdb] else [])
    ∧ trial_order cfg is_tv false =
        (if is_tv then [.tvmaze] else []) ++
          (if keySet cfg.TMDB_API_KEY then [.tmdb] else []) ++
          (if keySet cfg.OMDB_API_KEY then [.omdb] else []) ++ [.anilist]
    ∧ (∀ w ∈ (get_poster env cfg cache title is_tv true).cacheWrites,
        w.1 = "poster_" ++ title ++ "_" ++ "anime")
    ∧ (cache_lookup env cfg cache
          ("poster_" ++ title ++ "_" ++ (if is_tv then "tv" else "movie")) = none →
        get_poster env cfg cache title is_tv false =
          runChain env cfg cache
            ("poster_" ++ title ++ "_" ++ (if is_tv then "tv" else "movie")) title
            (trial_order cfg is_tv false) []) := by
  have hgp : get_poster env cfg cache title is_tv true =
      runChain env cfg cache ("poster_" ++ title ++ "_" ++ "anime") title
        (trial_order cfg is_tv true) [] := by
    simp only [get_poster, hmock, Bool.false_eq_true, reduceIte, if_true, hmiss]
    exact provider_chain_eq env cfg cache _ title is_tv true
  refine ⟨hgp, by simp [trial_order], by simp [trial_order], ?_, ?_⟩
  · intro w hw
    rw [hgp] at hw
    exact (runChain_writes env cfg cache _ title _ [] w hw).1
  · intro hmiss2
    simp only [get_poster, hmock, Bool.false_eq_true, reduceIte, hmiss2]
    exact provider_chain_eq env cfg cache _ title is_tv false

/-- C4, witness: the order theorem at a concrete world with no API keys
configured, in both the anime and the non-anime case. -/
theorem C4_witness :
    (get_poster envHit cfgRaw [] "T" true true =
      runChain envHit cfgRaw [] ("poster_" ++ "T" ++ "_" ++ "anime") "T"
        (trial_order cfgRaw true true) [])
    ∧ (get_poster envHit cfgRaw [] "T" true false =
      runChain envHit cfgRaw [] ("poster_" ++ "T" ++ "_" ++ (if true then "tv" else "movie")) "T"
        (trial_order cfgRaw true false) []) :=
  ⟨(C4_provider_order envHit cfgRaw [] "T" true rfl (by decide)).1,
   (C4_provider_order envHit cfgRaw [] "T" true rfl (by decide)).2.2.2.2 (by decide)⟩

/-- C5: with caching enabled and mock mode off, a `get_poster` call
whose key is in the index and whose cache file exists and reads
successfully returns that file's bytes with no provider invoked, no
cache write, and the index unchanged. -/
theorem C5_cache_short_circuit (env : APIEnv) (cfg : APIConfig) (cache : List (String × String))
    (title : String) (is_tv is_anime : Bool) (b : List Nat)
    (hmock : cfg.USE_MOCK_API = false)
    (huse : cfg.USE_CACHE = true)
    (hkey : (cache.lookup ("poster_" ++ title ++ "_" ++
        (if is_anime then "anime" else if is_tv then "tv" else "movie"))).isSome = true)
    (hex : env.fileExists (cfg.CACHE_DIR ++ "/" ++ ("poster_" ++ title ++ "_" ++
        (if is_anime then "anime" else if is_tv then "tv" else "movie")) ++ ".jpg") = true)
    (hread : env.readFile (cfg.CACHE_DIR ++ "/" ++ ("poster_" ++ title ++ "_" ++
        (if is_anime then "anime" else if is_tv then "tv" else "movie")) ++ ".jpg") = some b) :
    get_poster env cfg cache title is_tv is_anime = ⟨some b, [], [], cache⟩ := by
  have hcl : cache_lookup env cfg cache ("poster_" ++ title ++ "_" ++
      (if is_anime then "anime" else if is_tv then "tv" else "movie")) = some b := by
    simp [cache_lookup, hkey, huse, hex, hread]
  simp [get_poster, hmock, hcl]

/-- C5, witness: a cache hit on the `tv` tag returns the cached bytes
and calls nobody. -/
theorem C5_witness :
    get_poster envHit cfgRaw [("poster_" ++ "T" ++ "_" ++ "tv", "cache/poster_T_tv.jpg")]
        "T" true false =
      ⟨some [9, 9], [], [], [("poster_" ++ "T" ++ "_" ++ "tv", "cache/poster_T_tv.jpg")]⟩ :=
  C5_cache_short_circuit envHit cfgRaw _ "T" true false [9, 9] rfl rfl (by decide) rfl rfl

end MediaAPI
end AutoFolderIcon
namespace AutoFolderIcon
namespace MediaAPI

/-- C6, counterexample: when PIL cannot decode the downloaded bytes,
`_process_poster_image` returns them unchanged, and `get_poster` both
returns and caches the raw provider bytes — which equal the AniList
download and cannot be any output of the JPEG encoder.  This refutes
"raw provider bytes are never stored in the cache or returned". -/
theorem C6_raw_bytes_counterexample :
    (get_poster envRaw cfgRaw [] "T" false true).result = some [7, 7, 7]
    ∧ (get_poster envRaw cfgRaw [] "T" false true).cacheWrites =
        [("poster_" ++ "T" ++ "_" ++ "anime", [7, 7, 7])]
    ∧ envRaw.anilistDownload "T" = some [7, 7, 7]
    ∧ (∀ (img : Img) (q : Nat), envRaw.encodeJpeg img q ≠ some [7, 7, 7]) := by
  refine ⟨by decide, by decide, rfl, ?_⟩
  intro img q
  simp [envRaw]

/-- C6 (amended): when decoding succeeds, every poster byte string
`get_poster` returns from a provider is the JPEG-quality-85 encoding of
the RGB-converted, size-capped image, whose dimensions respect the
configured maximum; every cache write stores the processed form of some
provider's download; but when decoding or encoding raises, the raw
bytes are returned (and hence cached) unchanged. -/
theorem C6_normalization (env : APIEnv) (cfg : APIConfig) :
    (∀ data, env.decodeImage data = none → process_poster_image env cfg data = data)
    ∧ (∀ data img out, env.decodeImage data = some img →
        env.encodeJpeg (capSizeImg cfg (toRGBImg img)) 85 = some out →
        process_poster_image env cfg data = out)
    ∧ (∀ data img, env.decodeImage data = some img →
        env.encodeJpeg (capSizeImg cfg (toRGBImg img)) 85 = none →
        process_poster_image env cfg data = data)
    ∧ (∀ img : Img, (toRGBImg img).mode = "RGB")
    ∧ (∀ img : Img, cfg.MAX_POSTER_SIZE ≠ 0 → 0 < img.width → 0 < img.height →
        (capSizeImg cfg img).width ≤ cfg.MAX_POSTER_SIZE ∧
        (capSizeImg cfg img).height ≤ cfg.MAX_POSTER_SIZE)
    ∧ (∀ (cache : List (String × String)) (title : String) (is_tv is_anime : Bool)
        (w : String × List Nat),
        w ∈ (get_poster env cfg cache title is_tv is_anime).cacheWrites →
        ∃ tag raw, rawDownload env tag title = some raw ∧
          w.2 = process_poster_image env cfg raw ∧
          (get_poster env cfg cache title is_tv is_anime).result = some w.2) := by
  refine ⟨?_, ?_, ?_, ?_, ?_, ?_⟩
  · intro data hdec; simp [process_poster_image, hdec]
  · intro data img out hdec henc; simp [process_poster_image, hdec, henc]
  · intro data img hdec henc; simp [process_poster_image, hdec, henc]
  · intro img
    unfold toRGBImg
    split <;> simp_all
  · intro img hm hw hh
    unfold capSizeImg
    split
    · rename_i hcond
      unfold resizeImg
      have hwq : (0 : ℚ) < (img.width : ℚ) := by exact_mod_cast hw
      have hhq : (0 : ℚ) < (img.height : ℚ) := by exact_mod_cast hh
      constructor
      · have h1 : (img.width : ℚ) * min ((cfg.MAX_POSTER_SIZE : ℚ) / (img.width : ℚ))
            ((cfg.MAX_POSTER_SIZE : ℚ) / (img.height : ℚ)) ≤ (cfg.MAX_POSTER_SIZE : ℚ) := by
          calc (img.width : ℚ) * _ ≤ (img.width : ℚ) * ((cfg.MAX_POSTER_SIZE : ℚ) / (img.width : ℚ)) :=
                mul_le_mul_of_nonneg_left (min_le_left _ _) (le_of_lt hwq)
          _ = (cfg.MAX_POSTER_SIZE : ℚ) := by field_simp
        have h2 : ⌊(img.width : ℚ) * min ((cfg.MAX_POSTER_SIZE : ℚ) / (img.width : ℚ))
            ((cfg.MAX_POSTER_SIZE : ℚ) / (img.height : ℚ))⌋ ≤ (cfg.MAX_POSTER_SIZE : ℤ) := by
          have := Int.floor_le_floor h1
          simpa using this
        simpa [Int.toNat_le] using h2
      · have h1 : (img.height : ℚ) * min ((cfg.MAX_POSTER_SIZE : ℚ) / (img.width : ℚ))
            ((cfg.MAX_POSTER_SIZE : ℚ) / (img.height : ℚ)) ≤ (cfg.MAX_POSTER_SIZE : ℚ) := by
          calc (img.height : ℚ) * _ ≤ (img.height : ℚ) * ((cfg.MAX_POSTER_SIZE : ℚ) / (img.height : ℚ)) :=
                mul_le_mul_of_nonneg_left (min_le_right _ _) (le_of_lt hhq)
          _ = (cfg.MAX_POSTER_SIZE : ℚ) := by field_simp
        have h2 : ⌊(img.height : ℚ) * min ((cfg.MAX_POSTER_SIZE : ℚ) / (img.width : ℚ))
            ((cfg.MAX_POSTER_SIZE : ℚ) / (img.height : ℚ))⌋ ≤ (cfg.MAX_POSTER_SIZE : ℤ) := by
          have := Int.floor_le_floor h1
          simpa using this
        simpa [Int.toNat_le] using h2
    · rename_i hcond
      have h1 : ¬ (img.width > cfg.MAX_POSTER_SIZE ∨ img.height > cfg.MAX_POSTER_SIZE) := by
        intro hor; exact hcond ⟨hm, hor⟩
      push_neg at h1
      exact ⟨h1.1, h1.2⟩
  · intro cache title is_tv is_anime w hw
    by_cases hmock : cfg.USE_MOCK_API
    · simp [get_poster, hmock] at hw
    · have hmock' : cfg.USE_MOCK_API = false := by simpa using hmock
      rcases hcl : cache_lookup env cfg cache ("poster_" ++ title ++ "_" ++
          (if is_anime then "anime" else if is_tv then "tv" else "movie")) with _ | b
      · simp only [get_poster, hmock', Bool.false_eq_true, reduceIte, hcl] at hw ⊢
        rw [provider_chain_eq] at hw ⊢
        rcases (runChain_writes env cfg cache _ title _ [] w hw).2 with ⟨tag, _, raw, hraw, hp, hres⟩
        exact ⟨tag, raw, hraw, hp, hres⟩
      · simp [get_poster, hmock', hcl] at hw

end MediaAPI
end AutoFolderIcon
namespace AutoFolderIcon
namespace MediaWatcher

lemma actsOf_ok (r : PFState × PFActions) : actsOf (.ok r) = r.2 := by
  obtain ⟨s', a⟩ := r
  unfold actsOf
  rfl

lemma actsOf_error (e : PFErr) : actsOf (.error e) = e.2.2 := by
  obtain ⟨m, s', a⟩ := e
  unfold actsOf
  rfl

lemma anime_term_true (title : String) (p : PyPath) (term : String)
    (hterm : term ∈ anime_terms)
    (hmatch : strContains (pyLower title) term = true ∨ strContains (pathStrLower p) term = true) :
    is_likely_anime title p = true := by
  unfold is_likely_anime
  by_cases hpop : popular_anime.any fun a => strContains (pyLower title) a
  · simp [hpop]
  · have hterms : (anime_terms.any fun t =>
        strContains (pyLower title) t || strContains (pathStrLower p) t) = true :=
      List.any_eq_true.mpr ⟨term, hterm, by rcases hmatch with h | h <;> simp [h]⟩
    simp [hpop, hterms]

lemma fetch_requests (env : PFEnv) (s : PFState) (fp target : PyPath) :
    ∀ r ∈ (actsOf (process_folder_fetch env s fp target)).posterRequests,
      r = (infer_title target, fp.any fun part => strContains (pyLower part) "season",
           is_likely_anime (infer_title target) fp) := by
  intro r hr
  simp only [process_folder_fetch] at hr
  repeat' split at hr
  all_goals simp [actsOf_ok, actsOf_error, PFActions.none] at hr
  all_goals exact hr

lemma body_requests (env : PFEnv) (cfg : PFConfig) (s : PFState) (p : PyPath) :
    ∀ r ∈ (actsOf (process_folder_body env cfg s p)).posterRequests,
      ∃ t : String, r = (t, p.any fun part => strContains (pyLower part) "season",
        is_likely_anime t p) := by
  intro r hr
  simp only [process_folder_body] at hr
  repeat' split at hr
  all_goals first
    | simp [actsOf_ok, actsOf_error, PFActions.none] at hr
    | exact ⟨_, fetch_requests _ _ _ _ r hr⟩

lemma process_folder_requests (env : PFEnv) (cfg : PFConfig) (s : PFState) (p : PyPath) :
    ∀ r ∈ (process_folder env cfg s p).2.posterRequests,
      ∃ t, r = (t, p.any fun part => strContains (pyLower part) "season",
        is_likely_anime t p) := by
  intro r hr
  have hb := body_requests env cfg s p r
  unfold process_folder at hr
  rcases hres : process_folder_body env cfg s p with ⟨e, s', a⟩ | ⟨s', a⟩ <;> rw [hres] at hr hb
  · rw [actsOf_error] at hb
    exact hb (by simpa using hr)
  · rw [actsOf_ok] at hb
    exact hb (by simpa using hr)

end MediaWatcher
end AutoFolderIcon
namespace AutoFolderIcon

open MediaWatcher MediaAPI in
/-- C10: the generic anime-term list contains `season`, `movie`,
`episode` and `special`, so any title or path containing one of them
(case-insensitively) makes `_is_likely_anime` true; consequently every
poster request `process_folder` emits for a path containing `season`
carries `is_anime = true`, and an anime-flagged `get_poster` caches
under the `anime` kind tag and tries AniList first. -/
theorem C10_season_implies_anime :
    (∀ (title : String) (p : PyPath) (term : String),
      term ∈ (["season", "movie", "episode", "special"] : List String) →
      (strContains (pyLower title) term = true ∨ strContains (pathStrLower p) term = true) →
      is_likely_anime title p = true)
    ∧ (∀ (env : PFEnv) (cfg : PFConfig) (s : PFState) (p : PyPath)
        (r : String × Bool × Bool),
        r ∈ (process_folder env cfg s p).2.posterRequests →
        strContains (pathStrLower p) "season" = true →
        r.2.2 = true)
    ∧ (∀ (env : APIEnv) (cfg : APIConfig) (cache : List (String × String)) (title : String)
        (is_tv : Bool) (w : String × List Nat),
        w ∈ (get_poster env cfg cache title is_tv true).cacheWrites →
        w.1 = "poster_" ++ title ++ "_" ++ "anime")
    ∧ (∀ (env : APIEnv) (cfg : APIConfig) (cache : List (String × String)) (title : String)
        (is_tv : Bool),
        cfg.USE_MOCK_API = false →
        cache_lookup env cfg cache ("poster_" ++ title ++ "_" ++ "anime") = none →
        (get_poster env cfg cache title is_tv true).calls.head? = some .anilist) := by
  refine ⟨?_, ?_, ?_, ?_⟩
  · intro title p term hterm hmatch
    have hterm' : term ∈ anime_terms := by fin_cases hterm <;> decide
    exact anime_term_true title p term hterm' hmatch
  · intro env cfg s p r hr hseason
    rcases process_folder_requests env cfg s p r hr with ⟨t, rfl⟩
    exact anime_term_true t p "season" (by decide) (Or.inr hseason)
  · intro env cfg cache title is_tv w hw
    by_cases hmock : cfg.USE_MOCK_API
    · simp [get_poster, hmock] at hw
    · have hmock' : cfg.USE_MOCK_API = false := by simpa using hmock
      rcases hcl : cache_lookup env cfg cache ("poster_" ++ title ++ "_" ++
          (if true then "anime" else if is_tv then "tv" else "movie")) with _ | b
      · simp only [get_poster, hmock', Bool.false_eq_true, reduceIte] at hw
        simp only [if_true] at hcl
        rw [hcl] at hw
        rw [provider_chain_eq] at hw
        exact (runChain_writes env cfg cache _ title _ [] w hw).1
      · simp only [get_poster, hmock', Bool.false_eq_true, reduceIte] at hw
        simp only [if_true] at hcl
        rw [hcl] at hw
        simp at hw
  · intro env cfg cache title is_tv hmock hmiss
    have hgp : get_poster env cfg cache title is_tv true =
        runChain env cfg cache ("poster_" ++ title ++ "_" ++ "anime") title
          (trial_order cfg is_tv true) [] := by
      simp only [get_poster, hmock, Bool.false_eq_true, reduceIte, if_true, hmiss]
      exact provider_chain_eq env cfg cache _ title is_tv true
    rw [hgp]
    rcases runChain_calls env cfg cache ("poster_" ++ title ++ "_" ++ "anime") title
      (trial_order cfg is_tv true) [] with ⟨suf, hsuf, hhead⟩
    rw [hsuf, List.nil_append, hhead]
    simp [trial_order]

open MediaWatcher in
/-- C10, witness: a series organised into `Season 1` is flagged as
anime. -/
theorem C10_witness :
    MediaWatcher.is_likely_anime "Dexter" ["root", "Dexter", "Season 1"] = true :=
  C10_season_implies_anime.1 "Dexter" ["root", "Dexter", "Season 1"] "season"
    (by decide) (Or.inr (by decide))

namespace MediaAPI

/-- C6, witness: a 2048×1024 CMYK decode is re-encoded as RGB
1024×512 at quality 85. -/
theorem C6_normalization_witness :
    envJpg.decodeImage [5] = some ⟨2048, 1024, "CMYK"⟩
    ∧ process_poster_image envJpg cfgRaw [5] = [1024, 512, 85] := by
  have hcap : capSizeImg cfgRaw (toRGBImg ⟨2048, 1024, "CMYK"⟩) = ⟨1024, 512, "RGB"⟩ := by
    have hrgb : toRGBImg ⟨2048, 1024, "CMYK"⟩ = ⟨2048, 1024, "RGB"⟩ := by decide
    rw [hrgb]
    unfold capSizeImg resizeImg cfgRaw
    norm_num [min_def]
    constructor <;> decide
  have henc : envJpg.encodeJpeg (capSizeImg cfgRaw (toRGBImg ⟨2048, 1024, "CMYK"⟩)) 85 =
      some [1024, 512, 85] := by
    rw [hcap]
    rfl
  exact ⟨rfl, (C6_normalization envJpg cfgRaw).2.1 [5] ⟨2048, 1024, "CMYK"⟩ [1024, 512, 85]
    rfl henc⟩

end MediaAPI
end AutoFolderIcon
